import Mathlib

/-!
Shallow embedding of the intent-to-query orchestration pipeline of the
Teste-Bot repository (app/ferramentas/ferramentas_sql.py, app/db/consultas.py,
app/core/orquestrador.py, app/core/gerenciador_contexto.py,
app/agentes/agente_roteador.py), together with theorems settling the frozen
claims about the natural-language specification.

Modelling conventions:
* Python `datetime.date` values are embedded as calendar triples
  (year, month, day); `datetime` values occurring in the code are always
  midnights (`time.min`), so timestamp window endpoints are embedded as
  day ordinals (a proleptic-Gregorian day count, as `Int`).
* `date.today()` is passed explicitly as a `Data` argument.
* Python dicts used as bound-parameter maps are embedded as association
  lists in insertion order.
* Functions that `raise ValueError(msg)` are embedded as `Except String`.
* External collaborators (database driver, NLU model) are embedded as
  explicit oracle arguments.
-/

namespace TesteBot

/-- A bound-parameter value: integer, string, or datetime (day ordinal). -/
inductive Valor where
  | vi (n : Int)
  | vs (s : String)
  | vd (ordinal : Int)
deriving DecidableEq, Repr

/-- Bound-parameter map, in insertion order. -/
abbrev Params := List (String × Valor)

deriving instance DecidableEq for Except

/-- A calendar date, mirroring Python `datetime.date`. -/
structure Data where
  ano : Nat
  mes : Nat
  dia : Nat
deriving DecidableEq, Repr

/-- Gregorian leap-year test, as used by Python `calendar`/`dateutil`. -/
def bissexto (y : Nat) : Prop := (y % 4 = 0 ∧ y % 100 ≠ 0) ∨ y % 400 = 0

instance (y : Nat) : Decidable (bissexto y) := by
  unfold bissexto; infer_instance

/-- Days in a Gregorian month. -/
def diasNoMes (y m : Nat) : Nat :=
  if m = 2 then (if bissexto y then 29 else 28)
  else if m = 4 ∨ m = 6 ∨ m = 9 ∨ m = 11 then 30
  else 31

/-- Days in the months of year `y` strictly before month `m`. -/
def diasAntesDoMes (y : Nat) : Nat → Nat
  | 0 => 0
  | 1 => 0
  | m + 1 => diasAntesDoMes y m + diasNoMes y m

/-- Number of leap years in `1..n`. -/
def contBissextos (n : Nat) : Nat := n / 4 + n / 400 - n / 100

/-- Days strictly before January 1st of year `y` (counting from year 1). -/
def diasAntesDoAno (y : Nat) : Nat := 365 * (y - 1) + contBissextos (y - 1)

/-- Proleptic-Gregorian day ordinal of a date (day 1 = 0001-01-01),
matching Python `date.toordinal`. -/
def ordDe (d : Data) : Int :=
  ((diasAntesDoAno d.ano + diasAntesDoMes d.ano d.mes + d.dia : Nat) : Int)

/-- Validity of a calendar date (year at least 2 so that the embedded
calendar arithmetic never leaves the supported range). -/
def Data.valida (d : Data) : Prop :=
  2 ≤ d.ano ∧ 1 ≤ d.mes ∧ d.mes ≤ 12 ∧ 1 ≤ d.dia ∧ d.dia ≤ diasNoMes d.ano d.mes

instance (d : Data) : Decidable d.valida := by
  unfold Data.valida; infer_instance

/-- First day of the month of `d`, i.e. Python `d.replace(day=1)`. -/
def inicioDoMes (d : Data) : Data := ⟨d.ano, d.mes, 1⟩

/-- First day of the month after the month of `d` (Python
`d.replace(day=1) + relativedelta(months=1)`). -/
def primeiroDoMesSeguinte (d : Data) : Data :=
  if d.mes = 12 then ⟨d.ano + 1, 1, 1⟩ else ⟨d.ano, d.mes + 1, 1⟩

/-- First day of the month before the month of `d` (Python
`d.replace(day=1) - relativedelta(months=1)`). -/
def primeiroDoMesAnterior (d : Data) : Data :=
  if d.mes = 1 then ⟨d.ano - 1, 12, 1⟩ else ⟨d.ano, d.mes - 1, 1⟩

/-- Python `d.weekday()`: 0 = Monday, …, 6 = Sunday.  Day ordinal 1
(0001-01-01) is a Monday in the proleptic Gregorian calendar. -/
def diaDaSemana (d : Data) : Int := (ordDe d + 6) % 7

-- Calendar arithmetic lemmas -------------------------------------------------

theorem diasNoMes_pos (y m : Nat) : 0 < diasNoMes y m := by
  unfold diasNoMes
  split
  · split <;> omega
  · split <;> omega

theorem diasAntesDoMes_succ (y m : Nat) (h : 1 ≤ m) :
    diasAntesDoMes y (m + 1) = diasAntesDoMes y m + diasNoMes y m := by
  match m, h with
  | Nat.succ k, _ => rfl

theorem diasAntesDoMes_treze (y : Nat) :
    diasAntesDoMes y 13 = 365 + (if bissexto y then 1 else 0) := by
  by_cases h : bissexto y <;>
    simp [diasAntesDoMes, diasNoMes, h]

theorem contBissextos_succ (y : Nat) :
    contBissextos (y + 1) = contBissextos y + (if bissexto (y + 1) then 1 else 0) := by
  unfold contBissextos bissexto
  split
  · omega
  · omega

theorem diasAntesDoAno_succ (y : Nat) (h : 1 ≤ y) :
    diasAntesDoAno (y + 1) = diasAntesDoAno y + 365 + (if bissexto y then 1 else 0) := by
  unfold diasAntesDoAno
  rw [show y + 1 - 1 = y from by omega]
  have hc := contBissextos_succ (y - 1)
  rw [show y - 1 + 1 = y from by omega] at hc
  rw [hc]
  split <;> omega

theorem ordDe_mesSeguinte (d : Data) (h1 : 1 ≤ d.ano) (h2 : 1 ≤ d.mes) (_h3 : d.mes ≤ 12) :
    ordDe (primeiroDoMesSeguinte d) = ordDe (inicioDoMes d) + diasNoMes d.ano d.mes := by
  unfold primeiroDoMesSeguinte inicioDoMes ordDe
  by_cases h12 : d.mes = 12
  · simp only [h12, reduceIte]
    have hy := diasAntesDoAno_succ d.ano h1
    have h13 := diasAntesDoMes_treze d.ano
    have h12' : diasAntesDoMes d.ano 13 = diasAntesDoMes d.ano 12 + diasNoMes d.ano 12 :=
      diasAntesDoMes_succ d.ano 12 (by omega)
    have e1 : diasAntesDoMes (d.ano + 1) 1 = 0 := rfl
    rw [e1]
    by_cases hb : bissexto d.ano <;> simp only [hb, if_pos, if_neg, if_true, if_false] at hy h13 <;>
      push_cast <;> omega
  · simp only [if_neg h12]
    have := diasAntesDoMes_succ d.ano d.mes h2
    push_cast
    omega

theorem ordDe_mesAnterior (d : Data) (h1 : 2 ≤ d.ano) (h2 : 1 ≤ d.mes) (h3 : d.mes ≤ 12) :
    ordDe (inicioDoMes d) =
      ordDe (primeiroDoMesAnterior d) +
        diasNoMes (primeiroDoMesAnterior d).ano (primeiroDoMesAnterior d).mes := by
  by_cases hm1 : d.mes = 1
  · have hpm : primeiroDoMesAnterior d = ⟨d.ano - 1, 12, 1⟩ := by
      unfold primeiroDoMesAnterior; simp [hm1]
    rw [hpm]
    unfold inicioDoMes ordDe
    have hone := diasAntesDoAno_succ (d.ano - 1) (by omega)
    rw [show d.ano - 1 + 1 = d.ano from by omega] at hone
    have h13 := diasAntesDoMes_treze (d.ano - 1)
    have h12' : diasAntesDoMes (d.ano - 1) 13 =
        diasAntesDoMes (d.ano - 1) 12 + diasNoMes (d.ano - 1) 12 :=
      diasAntesDoMes_succ (d.ano - 1) 12 (by omega)
    have e1 : diasAntesDoMes d.ano 1 = 0 := rfl
    simp only [hm1, e1]
    by_cases hb : bissexto (d.ano - 1) <;>
      simp only [hb, if_pos, if_neg, if_true, if_false] at hone h13 <;>
      push_cast <;> omega
  · have hpm : primeiroDoMesAnterior d = ⟨d.ano, d.mes - 1, 1⟩ := by
      unfold primeiroDoMesAnterior; simp [hm1]
    rw [hpm]
    unfold inicioDoMes ordDe
    have hs := diasAntesDoMes_succ d.ano (d.mes - 1) (by omega)
    rw [show d.mes - 1 + 1 = d.mes from by omega] at hs
    push_cast
    omega

-- Python string primitives, embedded on character lists ----------------------

/-- ASCII lower-casing of one character (fragment of Python `str.lower`
exercised by the period tokens). -/
def minusculaChar (c : Char) : Char :=
  if 'A' ≤ c ∧ c ≤ 'Z' then Char.ofNat (c.toNat + 32) else c

/-- Python `s.lower()`. -/
def minuscula (s : String) : String := ⟨s.data.map minusculaChar⟩

/-- Python `s.replace(" ", "_")`. -/
def substituirEspacos (s : String) : String :=
  ⟨s.data.map (fun c => if c = ' ' then '_' else c)⟩

/-- Python `s.strip()`. -/
def tirarEspacos (s : String) : String :=
  ⟨((s.data.dropWhile Char.isWhitespace).reverse.dropWhile Char.isWhitespace).reverse⟩

/-- Helper for `separar`: accumulates the current token while scanning. -/
def separarAux : List Char → List Char → List (List Char)
  | [], acc => [acc.reverse]
  | c :: resto, acc =>
    if c.isWhitespace then acc.reverse :: separarAux resto []
    else separarAux resto (c :: acc)

/-- Python `s.split()` (no argument): split on whitespace runs, dropping
empty pieces. -/
def separar (s : String) : List String :=
  ((separarAux s.data []).filter (· ≠ [])).map (fun l => ⟨l⟩)

/-- Decimal digit character (code 48 + d). -/
def digitoChar (d : Nat) : Char := Char.ofNat (48 + d)

/-- Fuel-driven helper for `natDigitos` (structural recursion on the fuel so
that the kernel can evaluate it). -/
def natDigitosAux : Nat → Nat → List Char
  | 0, _ => []
  | fuel + 1, n =>
    if n < 10 then [digitoChar n]
    else natDigitosAux fuel (n / 10) ++ [digitoChar (n % 10)]

/-- Decimal digits of a natural number, most significant first
(Python `str(n)` for `n ≥ 0`). -/
def natDigitos (n : Nat) : List Char := natDigitosAux (n + 1) n

theorem natDigitosAux_congr :
    ∀ (n f₁ f₂ : Nat), n < f₁ → n < f₂ → natDigitosAux f₁ n = natDigitosAux f₂ n := by
  intro n
  induction n using Nat.strong_induction_on with
  | _ n ih =>
    intro f₁ f₂ h₁ h₂
    match f₁, f₂ with
    | a + 1, b + 1 =>
      simp only [natDigitosAux]
      split
      · rfl
      · rename_i hn
        rw [ih (n / 10) (Nat.div_lt_self (by omega) (by omega)) a b (by omega) (by omega)]

theorem natDigitos_eq (n : Nat) :
    natDigitos n = if n < 10 then [digitoChar n]
      else natDigitos (n / 10) ++ [digitoChar (n % 10)] := by
  unfold natDigitos
  conv_lhs => rw [natDigitosAux]
  split
  · rfl
  · rw [natDigitosAux_congr (n / 10) n (n / 10 + 1)
      (Nat.div_lt_self (by omega) (by omega)) (by omega)]

/-- Python `str(n)` for a natural number. -/
def natStr (n : Nat) : String := ⟨natDigitos n⟩

/-- Python `str(i)` / f-string rendering of an integer. -/
def intStr (i : Int) : String :=
  if i < 0 then "-" ++ natStr i.natAbs else natStr i.natAbs

/-- Python `"\n".join(linhas)` (also used for `" AND ".join` etc.). -/
def juntar (sep : String) : List String → String
  | [] => ""
  | [x] => x
  | x :: resto => x ++ sep ++ juntar sep resto

/-- `Contem big small`: `small` occurs as a contiguous substring of `big`. -/
def Contem (big small : String) : Prop :=
  ∃ antes depois : String, big = antes ++ small ++ depois

-- The period resolver (ferramentas_sql._construir_clausula_data_otimizada) ---

/-- Embedding of `_construir_clausula_data_otimizada(periodo_tempo,
coluna_data)`.  `hoje` is the explicit embedding of `date.today()`; datetime
window endpoints (always midnights) are day ordinals.  `raise ValueError`
becomes `Except.error`. -/
def construir_clausula_data_otimizada (periodo_tempo : String) (coluna_data : String)
    (hoje : Data) : Except String (String × Params) :=
  if periodo_tempo = "" ∨ tirarEspacos (minuscula periodo_tempo) = "sempre" then
    .error "Período de tempo é obrigatório e não pode ser sempre. Use: hoje, este_mes, ultimo_mes, etc."
  else
    let periodo_normalizado := tirarEspacos (substituirEspacos (minuscula periodo_tempo))
    if periodo_normalizado = "hoje" then
      let data_inicio := ordDe hoje
      let data_fim := ordDe hoje + 1
      .ok (coluna_data ++ " >= :data_inicio AND " ++ coluna_data ++ " < :data_fim",
           [("data_inicio", .vd data_inicio), ("data_fim", .vd data_fim)])
    else if periodo_normalizado = "este_mes" ∨ periodo_normalizado = "mes_atual" then
      let data_inicio := ordDe (inicioDoMes hoje)
      let data_fim := ordDe (primeiroDoMesSeguinte hoje)
      .ok (coluna_data ++ " >= :data_inicio AND " ++ coluna_data ++ " < :data_fim",
           [("data_inicio", .vd data_inicio), ("data_fim", .vd data_fim)])
    else if periodo_normalizado = "ultimo_mes" ∨ periodo_normalizado = "mes_passado" then
      let data_fim := ordDe (inicioDoMes hoje)
      let data_inicio := ordDe (primeiroDoMesAnterior hoje)
      .ok (coluna_data ++ " >= :data_inicio AND " ++ coluna_data ++ " < :data_fim",
           [("data_inicio", .vd data_inicio), ("data_fim", .vd data_fim)])
    else if periodo_normalizado = "esta_semana" ∨ periodo_normalizado = "semana_atual" then
      let dias_desde_segunda := diaDaSemana hoje
      let inicio_semana := ordDe hoje - dias_desde_segunda
      .ok (coluna_data ++ " >= :data_inicio AND " ++ coluna_data ++ " < :data_fim",
           [("data_inicio", .vd inicio_semana), ("data_fim", .vd (inicio_semana + 7))])
    else if periodo_normalizado = "semana_passada" ∨ periodo_normalizado = "ultima_semana" then
      let dias_desde_segunda := diaDaSemana hoje
      let inicio_semana_atual := ordDe hoje - dias_desde_segunda
      let inicio_semana_passada := inicio_semana_atual - 7
      .ok (coluna_data ++ " >= :data_inicio AND " ++ coluna_data ++ " < :data_fim",
           [("data_inicio", .vd inicio_semana_passada), ("data_fim", .vd inicio_semana_atual)])
    else if periodo_normalizado = "ontem" then
      let ontem := ordDe hoje - 1
      .ok (coluna_data ++ " >= :data_inicio AND " ++ coluna_data ++ " < :data_fim",
           [("data_inicio", .vd ontem), ("data_fim", .vd (ontem + 1))])
    else
      .error ("Período " ++ periodo_tempo ++ " não é válido. Use um dos seguintes: hoje, ontem, este_mes, mes_atual, ultimo_mes, mes_passado, esta_semana, semana_atual, ultima_semana, semana_passada")

/-- The `[start, end)` window bound into a successful clause result. -/
def janelaDe (r : Except String (String × Params)) : Option (Int × Int) :=
  match r with
  | .ok (_, ps) =>
    match List.lookup "data_inicio" ps, List.lookup "data_fim" ps with
    | some (.vd a), some (.vd b) => some (a, b)
    | _, _ => none
  | .error _ => none

/-- C4.  For every canonical period token the resolver yields a half-open
window with `end > start`; synonyms resolve to the same window; adjacent
periods (this/last month, this/last week, today/yesterday) are contiguous
(the earlier window's end is the later window's start) and disjoint; week
windows start on a Monday (weekday 0). -/
theorem c4_janelas_periodos (hoje : Data) (hv : hoje.valida) (col : String) :
    (janelaDe (construir_clausula_data_otimizada "hoje" col hoje) =
        some (ordDe hoje, ordDe hoje + 1) ∧
      ordDe hoje < ordDe hoje + 1) ∧
    (janelaDe (construir_clausula_data_otimizada "ontem" col hoje) =
        some (ordDe hoje - 1, ordDe hoje) ∧
      ordDe hoje - 1 < ordDe hoje) ∧
    (janelaDe (construir_clausula_data_otimizada "este_mes" col hoje) =
        some (ordDe (inicioDoMes hoje), ordDe (primeiroDoMesSeguinte hoje)) ∧
      ordDe (inicioDoMes hoje) < ordDe (primeiroDoMesSeguinte hoje)) ∧
    (janelaDe (construir_clausula_data_otimizada "ultimo_mes" col hoje) =
        some (ordDe (primeiroDoMesAnterior hoje), ordDe (inicioDoMes hoje)) ∧
      ordDe (primeiroDoMesAnterior hoje) < ordDe (inicioDoMes hoje)) ∧
    (janelaDe (construir_clausula_data_otimizada "esta_semana" col hoje) =
        some (ordDe hoje - diaDaSemana hoje, ordDe hoje - diaDaSemana hoje + 7) ∧
      ordDe hoje - diaDaSemana hoje < ordDe hoje - diaDaSemana hoje + 7) ∧
    (janelaDe (construir_clausula_data_otimizada "semana_passada" col hoje) =
        some (ordDe hoje - diaDaSemana hoje - 7, ordDe hoje - diaDaSemana hoje) ∧
      ordDe hoje - diaDaSemana hoje - 7 < ordDe hoje - diaDaSemana hoje) ∧
    -- synonym folding
    (construir_clausula_data_otimizada "mes_atual" col hoje =
        construir_clausula_data_otimizada "este_mes" col hoje ∧
      construir_clausula_data_otimizada "mes_passado" col hoje =
        construir_clausula_data_otimizada "ultimo_mes" col hoje ∧
      construir_clausula_data_otimizada "semana_atual" col hoje =
        construir_clausula_data_otimizada "esta_semana" col hoje ∧
      construir_clausula_data_otimizada "ultima_semana" col hoje =
        construir_clausula_data_otimizada "semana_passada" col hoje) ∧
    -- contiguity and disjointness of adjacent periods
    ((∀ x : Int, ¬(ordDe (primeiroDoMesAnterior hoje) ≤ x ∧ x < ordDe (inicioDoMes hoje) ∧
        ordDe (inicioDoMes hoje) ≤ x ∧ x < ordDe (primeiroDoMesSeguinte hoje))) ∧
      (∀ x : Int, ¬(ordDe hoje - diaDaSemana hoje - 7 ≤ x ∧ x < ordDe hoje - diaDaSemana hoje ∧
        ordDe hoje - diaDaSemana hoje ≤ x ∧ x < ordDe hoje - diaDaSemana hoje + 7)) ∧
      (∀ x : Int, ¬(ordDe hoje - 1 ≤ x ∧ x < ordDe hoje ∧ ordDe hoje ≤ x ∧ x < ordDe hoje + 1))) ∧
    -- Monday anchoring of week windows
    (ordDe hoje - diaDaSemana hoje + 6) % 7 = 0 := by
  obtain ⟨ha, hm1, hm2, _, _⟩ := hv
  have hseg := ordDe_mesSeguinte hoje (by omega) hm1 hm2
  have hant := ordDe_mesAnterior hoje ha hm1 hm2
  have hpos1 := diasNoMes_pos hoje.ano hoje.mes
  have hpos2 := diasNoMes_pos (primeiroDoMesAnterior hoje).ano (primeiroDoMesAnterior hoje).mes
  have hontem : janelaDe (construir_clausula_data_otimizada "ontem" col hoje) =
      some (ordDe hoje - 1, ordDe hoje - 1 + 1) := rfl
  refine ⟨⟨rfl, by omega⟩,
    ⟨by rw [hontem, show ordDe hoje - 1 + 1 = ordDe hoje from by omega], by omega⟩,
    ⟨rfl, by omega⟩, ⟨rfl, by omega⟩,
    ⟨rfl, by omega⟩, ⟨rfl, by omega⟩, ⟨rfl, rfl, rfl, rfl⟩, ⟨?_, ?_, ?_⟩, ?_⟩
  · intro x; omega
  · intro x; omega
  · intro x; omega
  · unfold diaDaSemana; omega

/-- Witness for C4 at a concrete date (2025-10-12, a Sunday). -/
theorem c4_janelas_periodos_witness :
    Data.valida ⟨2025, 10, 12⟩ ∧
    janelaDe (construir_clausula_data_otimizada "este_mes" "C.DATA" ⟨2025, 10, 12⟩) =
      some (ordDe (inicioDoMes ⟨2025, 10, 12⟩), ordDe (primeiroDoMesSeguinte ⟨2025, 10, 12⟩)) ∧
    ordDe (inicioDoMes ⟨2025, 10, 12⟩) < ordDe (primeiroDoMesSeguinte ⟨2025, 10, 12⟩) := by
  have h := c4_janelas_periodos ⟨2025, 10, 12⟩ (by decide) "C.DATA"
  exact ⟨by decide, h.2.2.1.1, h.2.2.1.2⟩

-- Flexible text filter (ferramentas_sql._construir_filtro_texto_flexivel) ---

/-- The bound-parameter key `f"{nome_param}_{i}_{j}"`. -/
def chaveParam (nome_param : String) (i j : Nat) : String :=
  nome_param ++ "_" ++ natStr i ++ "_" ++ natStr j

/-- Inner loop `for j, palavra in enumerate(palavras_chave)`: the per-token
LIKE atoms of one column (`j` is the running index). -/
def porPalavra (campo nome : String) (i : Nat) : Nat → List String → List String
  | _, [] => []
  | j, _ :: resto =>
    ("LOWER(" ++ campo ++ ") LIKE LOWER(:" ++ chaveParam nome i j ++ ")") ::
      porPalavra campo nome i (j + 1) resto

/-- Inner loop, parameter side: each token×column pair is bound to the token
wrapped in `%` wildcards. -/
def paramsPalavra (nome : String) (i : Nat) : Nat → List String → List (String × Valor)
  | _, [] => []
  | j, palavra :: resto =>
    (chaveParam nome i j, Valor.vs ("%" ++ palavra ++ "%")) ::
      paramsPalavra nome i (j + 1) resto

/-- Outer loop `for i, campo in enumerate(campos)`: per-column clauses and
the accumulated parameter map. -/
def porCampo (nome : String) (palavras : List String) :
    Nat → List String → List String × List (String × Valor)
  | _, [] => ([], [])
  | i, campo :: resto =>
    let resto' := porCampo nome palavras (i + 1) resto
    (("(" ++ juntar " AND " (porPalavra campo nome i 0 palavras) ++ ")") :: resto'.1,
     paramsPalavra nome i 0 palavras ++ resto'.2)

/-- Embedding of `_construir_filtro_texto_flexivel(termo, campos, nome_param)`. -/
def construir_filtro_texto_flexivel (termo : String) (campos : List String)
    (nome_param : String) : String × List (String × Valor) :=
  let palavras_chave := separar termo
  if palavras_chave = [] then ("", [])
  else
    let r := porCampo nome_param palavras_chave 0 campos
    ("(" ++ juntar " OR " r.1 ++ ")", r.2)

-- Injectivity of the generated parameter names --------------------------------

theorem digitoChar_toNat (d : Nat) (h : d < 10) : (digitoChar d).toNat = 48 + d := by
  interval_cases d <;> decide

theorem digitoChar_ne_sublinhado (d : Nat) (h : d < 10) : digitoChar d ≠ '_' := by
  interval_cases d <;> decide

/-- Numeric value of a digit string (for parsing back `natDigitos`). -/
def valorDigitos (l : List Char) : Nat := l.foldl (fun a c => 10 * a + (c.toNat - 48)) 0

theorem valorDigitos_append (l : List Char) (c : Char) :
    valorDigitos (l ++ [c]) = 10 * valorDigitos l + (c.toNat - 48) := by
  simp [valorDigitos, List.foldl_append]

theorem valor_natDigitos (n : Nat) : valorDigitos (natDigitos n) = n := by
  induction n using Nat.strong_induction_on with
  | _ n ih =>
    rw [natDigitos_eq]
    split
    · rename_i h
      simp [valorDigitos, digitoChar_toNat n h]
    · rename_i h
      rw [valorDigitos_append, ih (n / 10) (Nat.div_lt_self (by omega) (by omega)),
        digitoChar_toNat (n % 10) (Nat.mod_lt n (by omega))]
      omega

theorem natStr_inj {a b : Nat} (h : natStr a = natStr b) : a = b := by
  have hd : natDigitos a = natDigitos b := congrArg String.data h
  have := valor_natDigitos a
  rw [hd, valor_natDigitos b] at this
  omega

theorem natDigitos_sem_sublinhado (n : Nat) : '_' ∉ natDigitos n := by
  induction n using Nat.strong_induction_on with
  | _ n ih =>
    rw [natDigitos_eq]
    split
    · rename_i h
      simp [Ne.symm (digitoChar_ne_sublinhado n h)]
    · rename_i h
      intro hmem
      rcases List.mem_append.mp hmem with hmem | hmem
      · exact ih (n / 10) (Nat.div_lt_self (by omega) (by omega)) hmem
      · simp at hmem
        exact digitoChar_ne_sublinhado (n % 10) (Nat.mod_lt n (by omega)) hmem.symm

theorem split_sublinhado {l₁ l₂ m₁ m₂ : List Char}
    (h₁ : '_' ∉ l₁) (h₂ : '_' ∉ l₂)
    (h : l₁ ++ '_' :: m₁ = l₂ ++ '_' :: m₂) : l₁ = l₂ ∧ m₁ = m₂ := by
  induction l₁ generalizing l₂ with
  | nil =>
    cases l₂ with
    | nil => simpa using h
    | cons b bs =>
      simp only [List.nil_append, List.cons_append, List.cons.injEq] at h
      exact absurd (by simp [← h.1]) h₂
  | cons a as ih =>
    cases l₂ with
    | nil =>
      simp only [List.nil_append, List.cons_append, List.cons.injEq] at h
      exact absurd (by simp [h.1]) h₁
    | cons b bs =>
      simp only [List.cons_append, List.cons.injEq] at h
      have h₂' : '_' ∉ bs := by simp_all
      have hr := ih (by simp_all) h₂' h.2
      exact ⟨by simp [h.1, hr.1], hr.2⟩

theorem chaveParam_inj (nome : String) {i₁ j₁ i₂ j₂ : Nat}
    (h : chaveParam nome i₁ j₁ = chaveParam nome i₂ j₂) : i₁ = i₂ ∧ j₁ = j₂ := by
  have hd := congrArg String.data h
  simp only [chaveParam, String.data_append] at hd
  have hd2 : (natStr i₁).data ++ '_' :: (natStr j₁).data =
      (natStr i₂).data ++ '_' :: (natStr j₂).data := by
    have he : "_".data = ['_'] := rfl
    simp only [he, List.append_assoc, List.singleton_append] at hd
    have hc := List.append_cancel_left hd
    simpa using hc
  have hs := split_sublinhado (natDigitos_sem_sublinhado i₁) (natDigitos_sem_sublinhado i₂) hd2
  refine ⟨natStr_inj (String.ext hs.1), natStr_inj (String.ext hs.2)⟩

-- Lookup structure of the generated parameter map ----------------------------

theorem lookup_paramsPalavra (nome : String) (i : Nat) (palavras : List String) :
    ∀ (j0 j : Nat), j0 ≤ j → ∀ (hlt : j - j0 < palavras.length),
      List.lookup (chaveParam nome i j) (paramsPalavra nome i j0 palavras) =
        some (.vs ("%" ++ palavras.get ⟨j - j0, hlt⟩ ++ "%")) := by
  induction palavras with
  | nil => intro j0 j hj hlt; simp at hlt
  | cons p resto ih =>
    intro j0 j hj hlt
    by_cases hjj : j = j0
    · subst hjj
      simp [paramsPalavra, List.lookup]
    · have hne : chaveParam nome i j ≠ chaveParam nome i j0 := by
        intro he; exact hjj (chaveParam_inj nome he).2
      have hj1 : j0 + 1 ≤ j := by omega
      have hlt1 : j - (j0 + 1) < resto.length := by simp at hlt; omega
      have hget : (p :: resto).get ⟨j - j0, hlt⟩ = resto.get ⟨j - (j0 + 1), hlt1⟩ := by
        have : j - j0 = (j - (j0 + 1)) + 1 := by omega
        simp [this]
      rw [hget]
      have hb : (chaveParam nome i j == chaveParam nome i j0) = false :=
        beq_eq_false_iff_ne.mpr hne
      simp only [paramsPalavra, List.lookup, hb]
      exact ih (j0 + 1) j hj1 hlt1

theorem lookup_paramsPalavra_none (nome : String) (i : Nat) (palavras : List String) :
    ∀ (j0 : Nat) (i' j : Nat), (i' ≠ i ∨ j < j0 ∨ j0 + palavras.length ≤ j) →
      List.lookup (chaveParam nome i' j) (paramsPalavra nome i j0 palavras) = none := by
  induction palavras with
  | nil => intro j0 i' j _; simp [paramsPalavra]
  | cons p resto ih =>
    intro j0 i' j hcond
    have hne : chaveParam nome i' j ≠ chaveParam nome i j0 := by
      intro he
      obtain ⟨hi, hj⟩ := chaveParam_inj nome he
      simp at hcond
      omega
    have hb : (chaveParam nome i' j == chaveParam nome i j0) = false :=
      beq_eq_false_iff_ne.mpr hne
    simp only [paramsPalavra, List.lookup, hb]
    apply ih
    simp at hcond ⊢
    omega

theorem lookup_porCampo (nome : String) (palavras : List String) :
    ∀ (i0 : Nat) (campos : List String) (i j : Nat), i0 ≤ i → i - i0 < campos.length →
      ∀ (hj : j < palavras.length),
      List.lookup (chaveParam nome i j) (porCampo nome palavras i0 campos).2 =
        some (.vs ("%" ++ palavras.get ⟨j, hj⟩ ++ "%")) := by
  intro i0 campos
  induction campos generalizing i0 with
  | nil => intro i j _ hi _; simp at hi
  | cons campo resto ih =>
    intro i j hi0 hi hj
    simp only [porCampo, List.lookup_append]
    by_cases hii : i = i0
    · subst hii
      have := lookup_paramsPalavra nome i palavras 0 j (by omega) (by simpa using hj)
      simp only [Nat.sub_zero] at this
      rw [this]
      rfl
    · rw [lookup_paramsPalavra_none nome i0 palavras 0 i j (by omega)]
      have := ih (i0 + 1) i j (by omega) (by simp at hi; omega) hj
      rw [this]
      rfl

theorem paramsPalavra_length (nome : String) (i : Nat) (palavras : List String) :
    ∀ j0, (paramsPalavra nome i j0 palavras).length = palavras.length := by
  induction palavras with
  | nil => intro; rfl
  | cons p resto ih => intro j0; simp [paramsPalavra, ih (j0 + 1)]

theorem porCampo_params_length (nome : String) (palavras : List String) :
    ∀ (i0 : Nat) (campos : List String),
      (porCampo nome palavras i0 campos).2.length = campos.length * palavras.length := by
  intro i0 campos
  induction campos generalizing i0 with
  | nil => simp [porCampo]
  | cons campo resto ih =>
    simp only [porCampo, List.length_append, paramsPalavra_length, ih (i0 + 1),
      List.length_cons]
    ring

theorem porPalavra_so_conta (campo nome : String) (i : Nat) :
    ∀ (j : Nat) (p₁ p₂ : List String), p₁.length = p₂.length →
      porPalavra campo nome i j p₁ = porPalavra campo nome i j p₂ := by
  intro j p₁
  induction p₁ generalizing j with
  | nil => intro p₂ h; cases p₂ <;> simp_all [porPalavra]
  | cons x resto ih =>
    intro p₂ h
    cases p₂ with
    | nil => simp at h
    | cons y resto₂ =>
      simp only [porPalavra]
      simp at h
      rw [ih (j + 1) resto₂ h]

theorem porCampo_clausula_so_conta (nome : String) (p₁ p₂ : List String)
    (h : p₁.length = p₂.length) :
    ∀ (i0 : Nat) (campos : List String),
      (porCampo nome p₁ i0 campos).1 = (porCampo nome p₂ i0 campos).1 := by
  intro i0 campos
  induction campos generalizing i0 with
  | nil => rfl
  | cons campo resto ih =>
    simp only [porCampo]
    rw [porPalavra_so_conta campo nome i0 0 p₁ p₂ h, ih (i0 + 1)]

/-- C8.  `_construir_filtro_texto_flexivel`: for every term with at least one
whitespace-separated token and every non-empty column list, (a) the generated
parameter names are unique — the key determines its token×column pair; (b) the
parameter bound for pair `(i, j)` holds exactly the `j`-th token wrapped in `%`
wildcards; (c) the predicate text never contains a token value: it depends
only on the number of tokens; (d) there is exactly one bound parameter per
token×column pair. -/
theorem c8_filtro_texto (termo : String) (campos : List String) (nome : String)
    (h1 : separar termo ≠ []) (_h2 : campos ≠ []) :
    (∀ i₁ j₁ i₂ j₂ : Nat, chaveParam nome i₁ j₁ = chaveParam nome i₂ j₂ →
      i₁ = i₂ ∧ j₁ = j₂) ∧
    (∀ i j, i < campos.length → ∀ (hj : j < (separar termo).length),
      List.lookup (chaveParam nome i j) (construir_filtro_texto_flexivel termo campos nome).2 =
        some (.vs ("%" ++ (separar termo).get ⟨j, hj⟩ ++ "%"))) ∧
    (∀ termo₂ : String, (separar termo₂).length = (separar termo).length →
      (construir_filtro_texto_flexivel termo₂ campos nome).1 =
        (construir_filtro_texto_flexivel termo campos nome).1) ∧
    (construir_filtro_texto_flexivel termo campos nome).2.length =
      campos.length * (separar termo).length := by
  have hbr : construir_filtro_texto_flexivel termo campos nome =
      ("(" ++ juntar " OR " (porCampo nome (separar termo) 0 campos).1 ++ ")",
       (porCampo nome (separar termo) 0 campos).2) := by
    simp [construir_filtro_texto_flexivel, h1]
  refine ⟨fun i₁ j₁ i₂ j₂ h => chaveParam_inj nome h, ?_, ?_, ?_⟩
  · intro i j hi hj
    rw [hbr]
    exact lookup_porCampo nome (separar termo) 0 campos i j (by omega) (by omega) hj
  · intro termo₂ hlen
    have h1' : separar termo₂ ≠ [] := by
      intro he; rw [he] at hlen; exact h1 (List.length_eq_zero.mp hlen.symm)
    have hbr₂ : construir_filtro_texto_flexivel termo₂ campos nome =
        ("(" ++ juntar " OR " (porCampo nome (separar termo₂) 0 campos).1 ++ ")",
         (porCampo nome (separar termo₂) 0 campos).2) := by
      simp [construir_filtro_texto_flexivel, h1']
    rw [hbr, hbr₂]
    simp only
    rw [porCampo_clausula_so_conta nome (separar termo₂) (separar termo) hlen 0 campos]
  · rw [hbr]
    exact porCampo_params_length nome (separar termo) 0 campos

/-- Witness for C8 on the term `"coca cola"` over columns
`["P.DESCRICAO", "P.MARCA"]`. -/
theorem c8_filtro_texto_witness :
    separar "coca cola" ≠ [] ∧
    (["P.DESCRICAO", "P.MARCA"] : List String) ≠ [] ∧
    List.lookup (chaveParam "produto" 1 0)
        (construir_filtro_texto_flexivel "coca cola" ["P.DESCRICAO", "P.MARCA"] "produto").2 =
      some (.vs "%coca%") ∧
    (construir_filtro_texto_flexivel "coca cola" ["P.DESCRICAO", "P.MARCA"] "produto").2.length =
      2 * 2 := by
  have h := c8_filtro_texto "coca cola" ["P.DESCRICAO", "P.MARCA"] "produto"
    (by decide) (by decide)
  refine ⟨by decide, by decide, ?_, ?_⟩
  · have := h.2.1 1 0 (by decide) (by decide)
    simpa using this
  · simpa using h.2.2.2

-- Query Catalog builders (ferramentas_sql.construir_query_*) -----------------

/-- Python `s.upper()` (ASCII fragment). -/
def maiusculaChar (c : Char) : Char :=
  if 'a' ≤ c ∧ c ≤ 'z' then Char.ofNat (c.toNat - 32) else c

/-- Python `s.upper()`. -/
def maiuscula (s : String) : String := ⟨s.data.map maiusculaChar⟩

/-- Embedding of `construir_query_produtos_classificados`.  Note that the
caller-requested `limite` is interpolated into the `FIRST_ROWS` hint text
(f-string), while it is also bound as the `:limite` parameter. -/
def construir_query_produtos_classificados (criterio_classificacao : String)
    (periodo_tempo : String) (limite : Int) (hoje : Data) :
    Except String (String × Params) :=
  if periodo_tempo = "" ∨ tirarEspacos (minuscula periodo_tempo) = "sempre" then
    .error "Período de tempo é obrigatório para esta consulta. Use: hoje, este_mes, ultimo_mes, etc."
  else
    let c := substituirEspacos (minuscula criterio_classificacao)
    let criterio_normalizado : Option String :=
      if c = "mais_vendidos" ∨ c = "maior_valor_vendas" ∨ c = "top_vendas" then
        some "mais_vendidos"
      else if c = "menos_vendidos" then some "menos_vendidos"
      else none
    let clausula_ordenacao : Option String :=
      match criterio_normalizado with
      | some "mais_vendidos" => some "TOTAL_VENDIDO DESC"
      | some "menos_vendidos" => some "TOTAL_VENDIDO ASC"
      | _ => none
    match clausula_ordenacao with
    | none => .error ("Critério de classificação inválido para vendas: " ++ criterio_classificacao)
    | some ord =>
      match construir_clausula_data_otimizada periodo_tempo "C.DATA" hoje with
      | .error e => .error e
      | .ok (clausula_data, params_data) =>
        .ok ("\n        SELECT /*+ FIRST_ROWS(" ++ intStr limite ++ ") INDEX_COMBINE(P) */ \n               P.CODPROD, P.DESCRICAO, P.PVENDA, VENDAS.TOTAL_VENDIDO\n        FROM PCPRODUT P\n        INNER JOIN (\n            SELECT /*+ INDEX(I IDX_PCPEDI_CODPROD) INDEX(C IDX_PCPEDC_DATA) */\n                   I.CODPROD, COUNT(*) AS TOTAL_VENDIDO\n            FROM PCPEDI I\n            INNER JOIN PCPEDC C ON I.NUMPED = C.NUMPED\n            WHERE "
              ++ clausula_data ++
            "\n            GROUP BY I.CODPROD\n        ) VENDAS ON P.CODPROD = VENDAS.CODPROD\n        WHERE P.DTEXCLUSAO IS NULL\n        ORDER BY "
              ++ ord ++
            "\n        FETCH FIRST :limite ROWS ONLY\n    ",
            ("limite", .vi limite) :: params_data)

/-- Embedding of `construir_query_clientes_classificados`. -/
def construir_query_clientes_classificados (criterio_classificacao : String)
    (periodo_tempo : String) (limite : Int) (hoje : Data) :
    Except String (String × Params) :=
  if periodo_tempo = "" ∨ tirarEspacos (minuscula periodo_tempo) = "sempre" then
    .error "Período de tempo é obrigatório para esta consulta. Use: hoje, este_mes, ultimo_mes, etc."
  else if criterio_classificacao ≠ "maior_valor_compras" then
    .error ("Critério de classificação de cliente inválido: " ++ criterio_classificacao)
  else
    match construir_clausula_data_otimizada periodo_tempo "DATA" hoje with
    | .error e => .error e
    | .ok (clausula_data, params_data) =>
      .ok ("\n        SELECT /*+ FIRST_ROWS(" ++ intStr limite ++ ") INDEX(C) */\n               C.CODCLI, C.CLIENTE, C.FANTASIA, GASTOS.VALOR_TOTAL_GASTO\n        FROM PCCLIENT C\n        INNER JOIN (\n            SELECT /*+ INDEX(PCPEDC IDX_PCPEDC_DATA) */\n                   CODCLI, SUM(VLTOTAL) AS VALOR_TOTAL_GASTO\n            FROM PCPEDC\n            WHERE "
            ++ clausula_data ++
          "\n            GROUP BY CODCLI\n        ) GASTOS ON C.CODCLI = GASTOS.CODCLI\n        ORDER BY GASTOS.VALOR_TOTAL_GASTO DESC\n        FETCH FIRST :limite ROWS ONLY\n    ",
          ("limite", .vi limite) :: params_data)

/-- Embedding of `construir_query_detalhes_produto`. -/
def construir_query_detalhes_produto (nome_produto : String) : String × Params :=
  let r := construir_filtro_texto_flexivel nome_produto ["P.DESCRICAO"] "produto"
  ("\n        SELECT /*+ FIRST_ROWS(5) INDEX(P IDX_PCPRODUT_DESCRICAO) */\n               P.CODPROD, P.DESCRICAO, P.MARCA, P.PESOLIQ, P.PVENDA, F.FORNECEDOR\n        FROM PCPRODUT P\n        LEFT JOIN PCFORNEC F ON P.CODFORNEC = F.CODFORNEC\n        WHERE P.DTEXCLUSAO IS NULL \n          AND "
    ++ r.1 ++
    "\n        FETCH FIRST 5 ROWS ONLY\n    ", r.2)

/-- Embedding of `construir_query_produtos_por_marca`. -/
def construir_query_produtos_por_marca (marca : String) (limite : Int) : String × Params :=
  let r := construir_filtro_texto_flexivel marca ["P.MARCA"] "marca"
  ("\n        SELECT /*+ FIRST_ROWS(:limite) INDEX(P IDX_PCPRODUT_MARCA) */\n               CODPROD, DESCRICAO, PVENDA \n        FROM PCPRODUT P\n        WHERE P.DTEXCLUSAO IS NULL \n          AND "
    ++ r.1 ++
    "\n        FETCH FIRST :limite ROWS ONLY\n    ", r.2 ++ [("limite", .vi limite)])

/-- Embedding of `construir_query_produtos_descontinuados`. -/
def construir_query_produtos_descontinuados (limite : Int) : String × Params :=
  ("\n        SELECT /*+ FIRST_ROWS(:limite) INDEX(PCPRODUT IDX_PCPRODUT_DTEXCLUSAO) */\n               CODPROD, DESCRICAO, DTEXCLUSAO \n        FROM PCPRODUT\n        WHERE DTEXCLUSAO IS NOT NULL\n        ORDER BY DTEXCLUSAO DESC\n        FETCH FIRST :limite ROWS ONLY\n    ",
   [("limite", .vi limite)])

/-- Embedding of `construir_query_limite_credito`. -/
def construir_query_limite_credito (codigo_cliente : Int) : String × Params :=
  ("\n        SELECT /*+ INDEX(PCCLIENT PK_PCCLIENT) */\n               CODCLI, CLIENTE, LIMCRED \n        FROM PCCLIENT \n        WHERE CODCLI = :codigo_cliente\n    ",
   [("codigo_cliente", .vi codigo_cliente)])

/-- Embedding of `construir_query_status_cliente`. -/
def construir_query_status_cliente (codigo_cliente : Int) : String × Params :=
  ("\n        SELECT /*+ INDEX(PCCLIENT PK_PCCLIENT) */\n               CODCLI, CLIENTE, BLOQUEIO, MOTIVOBLOQ, DTBLOQ \n        FROM PCCLIENT \n        WHERE CODCLI = :codigo_cliente\n    ",
   [("codigo_cliente", .vi codigo_cliente)])

/-- Embedding of `construir_query_contato_cliente`. -/
def construir_query_contato_cliente (codigo_cliente : Int) : String × Params :=
  ("\n        SELECT /*+ INDEX(PCCLIENT PK_PCCLIENT) */\n               CODCLI, CLIENTE, TELENT, EMAIL \n        FROM PCCLIENT \n        WHERE CODCLI = :codigo_cliente\n    ",
   [("codigo_cliente", .vi codigo_cliente)])

/-- Embedding of `construir_query_endereco_cliente`. -/
def construir_query_endereco_cliente (codigo_cliente : Int) : String × Params :=
  ("\n        SELECT /*+ INDEX(PCCLIENT PK_PCCLIENT) */\n               CODCLI, CLIENTE, ENDERENT, NUMEROENT, BAIRROENT, MUNICENT, ESTENT, CEPENT \n        FROM PCCLIENT \n        WHERE CODCLI = :codigo_cliente\n    ",
   [("codigo_cliente", .vi codigo_cliente)])

/-- Embedding of `construir_query_clientes_por_cidade`. -/
def construir_query_clientes_por_cidade (cidade : String) (limite : Int) : String × Params :=
  let r := construir_filtro_texto_flexivel cidade ["MUNICENT"] "cidade"
  ("\n        SELECT /*+ FIRST_ROWS(:limite) INDEX(PCCLIENT IDX_PCCLIENT_MUNICENT) */\n               CODCLI, CLIENTE, FANTASIA, MUNICENT \n        FROM PCCLIENT\n        WHERE DTEXCLUSAO IS NULL \n          AND "
    ++ r.1 ++
    "\n        FETCH FIRST :limite ROWS ONLY\n    ", r.2 ++ [("limite", .vi limite)])

/-- Embedding of `construir_query_clientes_recentes`. -/
def construir_query_clientes_recentes (periodo_tempo : String) (limite : Int)
    (hoje : Data) : Except String (String × Params) :=
  if periodo_tempo = "" ∨ tirarEspacos (minuscula periodo_tempo) = "sempre" then
    .error "Período de tempo específico é obrigatório para esta consulta."
  else
    match construir_clausula_data_otimizada periodo_tempo "DTCADASTRO" hoje with
    | .error e => .error e
    | .ok (clausula_data, params) =>
      .ok ("\n        SELECT /*+ FIRST_ROWS(:limite) INDEX(PCCLIENT IDX_PCCLIENT_DTCADASTRO) */\n               CODCLI, CLIENTE, DTCADASTRO \n        FROM PCCLIENT\n        WHERE DTEXCLUSAO IS NULL \n          AND "
          ++ clausula_data ++
        "\n        ORDER BY DTCADASTRO DESC\n        FETCH FIRST :limite ROWS ONLY\n    ",
        params ++ [("limite", .vi limite)])

/-- Embedding of `construir_query_registros_vendas`. -/
def construir_query_registros_vendas (codigo_cliente : Int) (periodo_tempo : String)
    (limite : Int) (hoje : Data) : Except String (String × Params) :=
  if periodo_tempo = "" ∨ tirarEspacos (minuscula periodo_tempo) = "sempre" then
    .error "Período de tempo é obrigatório para esta consulta. Use: hoje, este_mes, ultimo_mes, etc."
  else
    match construir_clausula_data_otimizada periodo_tempo "PC.DATA" hoje with
    | .error e => .error e
    | .ok (clausula_data, params_data) =>
      .ok ("\n        SELECT /*+ FIRST_ROWS(:limite) INDEX(PC IDX_PCPEDC_CODCLI_DATA) INDEX(C PK_PCCLIENT) */\n               C.CODCLI, C.CLIENTE, PC.NUMPED, PC.VLTOTAL, PC.POSICAO, PC.DATA\n        FROM PCPEDC PC \n        INNER JOIN PCCLIENT C ON C.CODCLI = PC.CODCLI\n        WHERE PC.CODCLI = :codigo_cliente AND "
          ++ clausula_data ++
        "\n        ORDER BY PC.DATA DESC\n        FETCH FIRST :limite ROWS ONLY\n    ",
        [("codigo_cliente", .vi codigo_cliente), ("limite", .vi limite)] ++ params_data)

/-- Embedding of `construir_query_itens_pedido`.  Observe: no `FETCH FIRST`
row cap of any kind appears in this template. -/
def construir_query_itens_pedido (id_pedido : Int) : String × Params :=
  ("\n        SELECT /*+ INDEX(PI IDX_PCPEDI_NUMPED) INDEX(P PK_PCPRODUT) */\n               PI.CODPROD, P.DESCRICAO, PI.QT, PI.PVENDA, (PI.QT * PI.PVENDA) AS VLTOTAL_ITEM\n        FROM PCPEDI PI \n        INNER JOIN PCPRODUT P ON PI.CODPROD = P.CODPROD\n        WHERE PI.NUMPED = :id_pedido\n        ORDER BY P.DESCRICAO\n    ",
   [("id_pedido", .vi id_pedido)])

/-- Embedding of `construir_query_posicao_pedido`. -/
def construir_query_posicao_pedido (id_pedido : Int) : String × Params :=
  ("\n        SELECT /*+ INDEX(PCPEDC PK_PCPEDC) */\n               NUMPED, POSICAO, DATA \n        FROM PCPEDC \n        WHERE NUMPED = :id_pedido\n    ",
   [("id_pedido", .vi id_pedido)])

/-- Embedding of `construir_query_valor_pedido`. -/
def construir_query_valor_pedido (id_pedido : Int) : String × Params :=
  ("\n        SELECT /*+ INDEX(PCPEDC PK_PCPEDC) */\n               NUMPED, VLTOTAL, DATA \n        FROM PCPEDC \n        WHERE NUMPED = :id_pedido\n    ",
   [("id_pedido", .vi id_pedido)])

/-- Embedding of `construir_query_data_entrega_pedido`. -/
def construir_query_data_entrega_pedido (id_pedido : Int) : String × Params :=
  ("\n        SELECT /*+ INDEX(PCPEDC PK_PCPEDC) */\n               NUMPED, DTENTREGA, DATA \n        FROM PCPEDC \n        WHERE NUMPED = :id_pedido\n    ",
   [("id_pedido", .vi id_pedido)])

/-- Embedding of `construir_query_pedidos_por_posicao`. -/
def construir_query_pedidos_por_posicao (posicao : String) (limite : Int) : String × Params :=
  let p := minuscula posicao
  let posicao_cod :=
    if p = "liberado" then "L"
    else if p = "bloqueado" then "B"
    else if p = "pendente" then "P"
    else if p = "faturado" then "F"
    else maiuscula posicao
  ("\n        SELECT /*+ FIRST_ROWS(:limite) INDEX(PCPEDC IDX_PCPEDC_POSICAO_DATA) */\n               NUMPED, CODCLI, VLTOTAL, DATA \n        FROM PCPEDC\n        WHERE POSICAO = :posicao\n        ORDER BY DATA DESC\n        FETCH FIRST :limite ROWS ONLY\n    ",
   [("posicao", .vs posicao_cod), ("limite", .vi limite)])

-- Accessors and substring infrastructure -------------------------------------

/-- The SQL template of a successful builder result. -/
def templateDe (r : Except String (String × Params)) : String :=
  match r with
  | .ok q => q.1
  | .error _ => ""

/-- The bound-parameter map of a successful builder result. -/
def paramsDe (r : Except String (String × Params)) : Params :=
  match r with
  | .ok q => q.2
  | .error _ => []

theorem contem_prefixo (a : String) {b s : String} (h : Contem b s) : Contem (a ++ b) s := by
  obtain ⟨x, y, hxy⟩ := h
  refine ⟨a ++ x, y, ?_⟩
  rw [hxy]
  simp [String.append_assoc]

theorem Contem_iff (big small : String) : Contem big small ↔ small.data <:+: big.data := by
  constructor
  · rintro ⟨a, d, h⟩
    exact ⟨a.data, d.data, by rw [h]; simp [String.data_append]⟩
  · rintro ⟨s, t, h⟩
    refine ⟨⟨s⟩, ⟨t⟩, String.ext ?_⟩
    rw [← h]
    simp [String.data_append]

/-- The ten canonical period tokens accepted by the period resolver. -/
def periodosCanonicos : List String :=
  ["hoje", "ontem", "este_mes", "mes_atual", "ultimo_mes", "mes_passado",
   "esta_semana", "semana_atual", "semana_passada", "ultima_semana"]

/-- The (unique) template text produced by the ranked-products builder, as a
function of the one caller value that reaches it: the requested limit. -/
def templateProdutosClassificados (limite : Int) : String :=
  "\n        SELECT /*+ FIRST_ROWS(" ++ intStr limite ++ ") INDEX_COMBINE(P) */ \n               P.CODPROD, P.DESCRICAO, P.PVENDA, VENDAS.TOTAL_VENDIDO\n        FROM PCPRODUT P\n        INNER JOIN (\n            SELECT /*+ INDEX(I IDX_PCPEDI_CODPROD) INDEX(C IDX_PCPEDC_DATA) */\n                   I.CODPROD, COUNT(*) AS TOTAL_VENDIDO\n            FROM PCPEDI I\n            INNER JOIN PCPEDC C ON I.NUMPED = C.NUMPED\n            WHERE "
    ++ "C.DATA >= :data_inicio AND C.DATA < :data_fim" ++
  "\n            GROUP BY I.CODPROD\n        ) VENDAS ON P.CODPROD = VENDAS.CODPROD\n        WHERE P.DTEXCLUSAO IS NULL\n        ORDER BY "
    ++ "TOTAL_VENDIDO DESC" ++
  "\n        FETCH FIRST :limite ROWS ONLY\n    "

/-- The (unique) template text produced by the ranked-customers builder, as a
function of the requested limit. -/
def templateClientesClassificados (limite : Int) : String :=
  "\n        SELECT /*+ FIRST_ROWS(" ++ intStr limite ++ ") INDEX(C) */\n               C.CODCLI, C.CLIENTE, C.FANTASIA, GASTOS.VALOR_TOTAL_GASTO\n        FROM PCCLIENT C\n        INNER JOIN (\n            SELECT /*+ INDEX(PCPEDC IDX_PCPEDC_DATA) */\n                   CODCLI, SUM(VLTOTAL) AS VALOR_TOTAL_GASTO\n            FROM PCPEDC\n            WHERE "
    ++ "DATA >= :data_inicio AND DATA < :data_fim" ++
  "\n            GROUP BY CODCLI\n        ) GASTOS ON C.CODCLI = GASTOS.CODCLI\n        ORDER BY GASTOS.VALOR_TOTAL_GASTO DESC\n        FETCH FIRST :limite ROWS ONLY\n    "

/-- Template text of the ranked-products query up to the interpolated limit. -/
def preProdutos : String := "\n        SELECT /*+ FIRST_ROWS("

/-- Template text of the ranked-products query after the interpolated limit. -/
def posProdutos : String :=
  ") INDEX_COMBINE(P) */ \n               P.CODPROD, P.DESCRICAO, P.PVENDA, VENDAS.TOTAL_VENDIDO\n        FROM PCPRODUT P\n        INNER JOIN (\n            SELECT /*+ INDEX(I IDX_PCPEDI_CODPROD) INDEX(C IDX_PCPEDC_DATA) */\n                   I.CODPROD, COUNT(*) AS TOTAL_VENDIDO\n            FROM PCPEDI I\n            INNER JOIN PCPEDC C ON I.NUMPED = C.NUMPED\n            WHERE "
    ++ "C.DATA >= :data_inicio AND C.DATA < :data_fim" ++
  "\n            GROUP BY I.CODPROD\n        ) VENDAS ON P.CODPROD = VENDAS.CODPROD\n        WHERE P.DTEXCLUSAO IS NULL\n        ORDER BY "
    ++ "TOTAL_VENDIDO DESC" ++
  "\n        FETCH FIRST :limite ROWS ONLY\n    "

/-- Template text of the ranked-customers query up to the interpolated limit. -/
def preClientes : String := "\n        SELECT /*+ FIRST_ROWS("

/-- Template text of the ranked-customers query after the interpolated limit. -/
def posClientes : String :=
  ") INDEX(C) */\n               C.CODCLI, C.CLIENTE, C.FANTASIA, GASTOS.VALOR_TOTAL_GASTO\n        FROM PCCLIENT C\n        INNER JOIN (\n            SELECT /*+ INDEX(PCPEDC IDX_PCPEDC_DATA) */\n                   CODCLI, SUM(VLTOTAL) AS VALOR_TOTAL_GASTO\n            FROM PCPEDC\n            WHERE "
    ++ "DATA >= :data_inicio AND DATA < :data_fim" ++
  "\n            GROUP BY CODCLI\n        ) GASTOS ON C.CODCLI = GASTOS.CODCLI\n        ORDER BY GASTOS.VALOR_TOTAL_GASTO DESC\n        FETCH FIRST :limite ROWS ONLY\n    "

set_option maxRecDepth 40000 in
/-- C2 (counterexample).  The ranked-products builder interpolates the
caller-requested limit into the SQL template text: with limit 987654321 the
template contains `FIRST_ROWS(987654321)`, and the template text varies with
the requested limit. -/
theorem c2_contraexemplo :
    templateDe (construir_query_produtos_classificados "mais_vendidos" "hoje" 987654321
        ⟨2025, 10, 12⟩) ≠
      templateDe (construir_query_produtos_classificados "mais_vendidos" "hoje" 10
        ⟨2025, 10, 12⟩) ∧
    Contem (templateDe (construir_query_produtos_classificados "mais_vendidos" "hoje" 987654321
      ⟨2025, 10, 12⟩)) "FIRST_ROWS(987654321)" := by
  refine ⟨by decide, ⟨"\n        SELECT /*+ ",
    " INDEX_COMBINE(P) */ \n               P.CODPROD, P.DESCRICAO, P.PVENDA, VENDAS.TOTAL_VENDIDO\n        FROM PCPRODUT P\n        INNER JOIN (\n            SELECT /*+ INDEX(I IDX_PCPEDI_CODPROD) INDEX(C IDX_PCPEDC_DATA) */\n                   I.CODPROD, COUNT(*) AS TOTAL_VENDIDO\n            FROM PCPEDI I\n            INNER JOIN PCPEDC C ON I.NUMPED = C.NUMPED\n            WHERE C.DATA >= :data_inicio AND C.DATA < :data_fim\n            GROUP BY I.CODPROD\n        ) VENDAS ON P.CODPROD = VENDAS.CODPROD\n        WHERE P.DTEXCLUSAO IS NULL\n        ORDER BY TOTAL_VENDIDO DESC\n        FETCH FIRST :limite ROWS ONLY\n    ",
    by decide⟩⟩

/-- C2 (amended).  For both ranking builders and every canonical period
token: the template text is one fixed string around the interpolated
caller-requested limit — in particular it is identical for every period
token and every date, so no period value (nor any other caller value except
the limit) reaches the text; the period window endpoints and the limit
travel only in the bound-parameter map. -/
theorem c2_emenda (lim : Int) (hoje : Data) :
    (templateProdutosClassificados lim = preProdutos ++ intStr lim ++ posProdutos ∧
     templateClientesClassificados lim = preClientes ++ intStr lim ++ posClientes) ∧
    ∀ p ∈ periodosCanonicos,
      templateDe (construir_query_produtos_classificados "mais_vendidos" p lim hoje) =
        templateProdutosClassificados lim ∧
      janelaDe (construir_query_produtos_classificados "mais_vendidos" p lim hoje) =
        janelaDe (construir_clausula_data_otimizada p "C.DATA" hoje) ∧
      List.lookup "limite"
          (paramsDe (construir_query_produtos_classificados "mais_vendidos" p lim hoje)) =
        some (.vi lim) ∧
      templateDe (construir_query_clientes_classificados "maior_valor_compras" p lim hoje) =
        templateClientesClassificados lim ∧
      janelaDe (construir_query_clientes_classificados "maior_valor_compras" p lim hoje) =
        janelaDe (construir_clausula_data_otimizada p "DATA" hoje) ∧
      List.lookup "limite"
          (paramsDe (construir_query_clientes_classificados "maior_valor_compras" p lim hoje)) =
        some (.vi lim) := by
  constructor
  · constructor
    · simp only [templateProdutosClassificados, preProdutos, posProdutos, String.append_assoc]
    · simp only [templateClientesClassificados, preClientes, posClientes, String.append_assoc]
  · intro p hp
    fin_cases hp <;> exact ⟨rfl, rfl, rfl, rfl, rfl, rfl⟩

/-- Witness for the amended C2 at the token `"este_mes"`. -/
theorem c2_emenda_witness :
    "este_mes" ∈ periodosCanonicos ∧
    templateDe (construir_query_produtos_classificados "mais_vendidos" "este_mes" 10
        ⟨2025, 10, 12⟩) =
      templateProdutosClassificados 10 := by
  have h := c2_emenda 10 ⟨2025, 10, 12⟩
  exact ⟨by decide, (h.2 "este_mes" (by decide)).1⟩

set_option maxRecDepth 40000 in
/-- C5 (counterexample).  `construir_query_itens_pedido` applies no result
cap whatsoever — its template contains no `FETCH` clause and its parameter
map carries only the order id — and the ranked-products builder's cap is the
caller-requested limit itself (999999 here), not a fixed server value. -/
theorem c5_contraexemplo :
    ¬ Contem (construir_query_itens_pedido 42).1 "FETCH" ∧
    (construir_query_itens_pedido 42).2 = [("id_pedido", .vi 42)] ∧
    List.lookup "limite" (paramsDe (construir_query_produtos_classificados "mais_vendidos"
      "hoje" 999999 ⟨2025, 10, 12⟩)) = some (.vi 999999) := by
  refine ⟨?_, by decide, by decide⟩
  rw [Contem_iff]
  decide

set_option maxRecDepth 40000 in
/-- C5 (amended).  The list-returning builders cap rows with
`FETCH FIRST :limite ROWS ONLY`, with `:limite` bound to the caller-requested
limit (the cap tracks the request; it is not a fixed server-enforced value);
`construir_query_detalhes_produto` caps at the fixed literal 5 (not a bound
parameter); and the order-items builder applies no cap at all. -/
theorem c5_emenda :
    (∀ lim : Int, (construir_query_produtos_descontinuados lim).2 = [("limite", .vi lim)] ∧
      Contem (construir_query_produtos_descontinuados lim).1 "FETCH FIRST :limite ROWS ONLY") ∧
    (∀ (lim : Int) (hoje : Data),
      List.lookup "limite"
          (paramsDe (construir_query_produtos_classificados "mais_vendidos" "hoje" lim hoje)) =
        some (.vi lim) ∧
      Contem (templateDe (construir_query_produtos_classificados "mais_vendidos" "hoje" lim hoje))
        "FETCH FIRST :limite ROWS ONLY") ∧
    (∀ (cod lim : Int) (hoje : Data),
      List.lookup "limite"
          (paramsDe (construir_query_registros_vendas cod "hoje" lim hoje)) =
        some (.vi lim) ∧
      Contem (templateDe (construir_query_registros_vendas cod "hoje" lim hoje))
        "FETCH FIRST :limite ROWS ONLY") ∧
    (∀ t : String,
      (construir_query_detalhes_produto t).2 =
        (construir_filtro_texto_flexivel t ["P.DESCRICAO"] "produto").2 ∧
      Contem (construir_query_detalhes_produto t).1 "FETCH FIRST 5 ROWS ONLY") ∧
    (∀ id : Int, (construir_query_itens_pedido id).2 = [("id_pedido", .vi id)] ∧
      ¬ Contem (construir_query_itens_pedido id).1 "FETCH") := by
  refine ⟨fun lim => ⟨rfl, ?_⟩, fun lim hoje => ⟨rfl, ?_⟩, fun cod lim hoje => ⟨rfl, ?_⟩,
    fun t => ⟨rfl, ?_⟩, fun id => ⟨rfl, ?_⟩⟩
  · exact ⟨"\n        SELECT /*+ FIRST_ROWS(:limite) INDEX(PCPRODUT IDX_PCPRODUT_DTEXCLUSAO) */\n               CODPROD, DESCRICAO, DTEXCLUSAO \n        FROM PCPRODUT\n        WHERE DTEXCLUSAO IS NOT NULL\n        ORDER BY DTEXCLUSAO DESC\n        ",
      "\n    ", rfl⟩
  · exact contem_prefixo _ ⟨"\n        ", "\n    ", rfl⟩
  · exact contem_prefixo _ ⟨"\n        ORDER BY PC.DATA DESC\n        ", "\n    ", rfl⟩
  · exact contem_prefixo _ ⟨"\n        ", "\n    ", rfl⟩
  · show ¬ Contem "\n        SELECT /*+ INDEX(PI IDX_PCPEDI_NUMPED) INDEX(P PK_PCPRODUT) */\n               PI.CODPROD, P.DESCRICAO, PI.QT, PI.PVENDA, (PI.QT * PI.PVENDA) AS VLTOTAL_ITEM\n        FROM PCPEDI PI \n        INNER JOIN PCPRODUT P ON PI.CODPROD = P.CODPROD\n        WHERE PI.NUMPED = :id_pedido\n        ORDER BY P.DESCRICAO\n    " "FETCH"
    rw [Contem_iff]
    decide

-- Database access layer (app/db/consultas.py) --------------------------------

/-- A result row: ordered column-name→value mapping. -/
abbrev Linha := List (String × Valor)

/-- Outcome of the raw Oracle driver interaction inside
`_gerenciar_conexao_bd` — an external collaborator, passed as an oracle.
`semDescricao` models `cursor.description` being `None`; `falha` models any
exception raised during the transaction (its message is the exception text). -/
inductive ResultadoCursor where
  | semDescricao
  | sucesso (linhas : List Linha)
  | falha (mensagem : String)
deriving DecidableEq

/-- The standardized return dictionary of `executar_consulta_selecao`:
keys `'dados'` and `'erro'`. -/
structure ResultadoDB where
  dados : Option (List Linha)
  erro : Option String
deriving DecidableEq

/-- Embedding of `executar_consulta_selecao(sql, params)`.  `conexaoOk` is
the result of `testarConexao`; `resultado` is the driver outcome.  A failed
connection test raises `ConnectionError`, and a driver failure is wrapped in
`ExcecaoRobo(f"Erro na operação de banco de dados: {e}")`; both are caught by
the outer `except` and serialized into the `'erro'` field. -/
def executar_consulta_selecao (_sql : String) (_params : Params)
    (conexaoOk : Bool) (resultado : ResultadoCursor) : ResultadoDB :=
  if ¬ conexaoOk then
    { dados := none, erro := some "Não foi possível estabelecer conexão com o banco de dados." }
  else
    match resultado with
    | .semDescricao => { dados := some [], erro := none }
    | .sucesso linhas => { dados := some linhas, erro := none }
    | .falha m => { dados := none, erro := some ("Erro na operação de banco de dados: " ++ m) }

/-- C10.  `executar_consulta_selecao` always returns (never raises), and its
result is exclusive: either `dados` is a list and `erro` is `None`, or
`dados` is `None` and `erro` is a non-empty failure string — never both
populated and never both `None`. -/
theorem c10_exclusividade (sql : String) (params : Params) (conexaoOk : Bool)
    (resultado : ResultadoCursor) :
    (∃ linhas, (executar_consulta_selecao sql params conexaoOk resultado).dados = some linhas ∧
      (executar_consulta_selecao sql params conexaoOk resultado).erro = none) ∨
    ((executar_consulta_selecao sql params conexaoOk resultado).dados = none ∧
      ∃ m, (executar_consulta_selecao sql params conexaoOk resultado).erro = some m ∧ m ≠ "") := by
  unfold executar_consulta_selecao
  by_cases hc : conexaoOk
  · simp only [hc]
    cases resultado with
    | semDescricao => exact .inl ⟨[], by simp⟩
    | sucesso linhas => exact .inl ⟨linhas, by simp⟩
    | falha m =>
      refine .inr ⟨by simp, "Erro na operação de banco de dados: " ++ m, by simp, ?_⟩
      intro h
      have hd := congrArg String.data h
      simp [String.data_append] at hd
  · simp [hc]

-- Entity resolver (orquestrador._resolver_cliente + consultas lookup) --------

/-- Python truthiness of an optional string (`None` and `""` are falsy). -/
def truthyStr : Option String → Bool
  | none => false
  | some s => s ≠ ""

/-- Python truthiness of an optional integer (`None` and `0` are falsy). -/
def truthyInt : Option Int → Bool
  | none => false
  | some n => n ≠ 0

/-- The open entity bag extracted by the NLU stage (`entidades` dict).
Absent keys are `none`. -/
structure Entidades where
  criterio_classificacao : Option String := none
  periodo_tempo : Option String := none
  nome_cliente : Option String := none
  codigo_cliente : Option Int := none
  nome_produto : Option String := none
  marca : Option String := none
  cidade : Option String := none
  posicao : Option String := none
  id_pedido : Option Int := none
  limite : Option Int := none
deriving DecidableEq

/-- A customer row as read by the resolver (`codcli`, `cliente`, `fantasia`). -/
structure Cliente where
  codcli : Int
  cliente : String
  fantasia : String
deriving DecidableEq

/-- Standardized result of the customer-search query. -/
structure ResultadoClientes where
  dados : Option (List Cliente)
  erro : Option String
deriving DecidableEq

/-- Embedding of `encontrar_clientes_por_nome_ou_codigo(nome, codigo)`.
`db` is the database collaborator (receives the SQL and bound parameters,
returns the standardized result). -/
def encontrar_clientes_por_nome_ou_codigo (nome : Option String) (codigo : Option Int)
    (db : String × Params → ResultadoClientes) : Except String ResultadoClientes :=
  if ¬ truthyStr nome ∧ ¬ truthyInt codigo then
    .error "Nome ou código do cliente deve ser fornecido."
  else
    let clausulas_where :=
      if truthyInt codigo then ["CODCLI = :codigo_cliente"]
      else ["(LOWER(CLIENTE) LIKE LOWER(:nome_cliente) OR LOWER(FANTASIA) LIKE LOWER(:nome_cliente))"]
    let params : Params :=
      if truthyInt codigo then [("codigo_cliente", .vi (codigo.getD 0))]
      else [("nome_cliente", .vs ("%" ++ nome.getD "" ++ "%"))]
    .ok (db ("\n        SELECT CODCLI, CLIENTE, FANTASIA\n        FROM PCCLIENT\n        WHERE "
      ++ juntar " AND " clausulas_where ++ "\n        FETCH FIRST 10 ROWS ONLY\n    ", params))

/-- The ambiguity message listing every candidate (code and name). -/
def mensagemAmbiguidade (ds : List Cliente) : String :=
  "Encontrei mais de um cliente. Por favor, especifique qual deles você deseja:\n" ++
    juntar "\n" (ds.map (fun c => "- Código: " ++ intStr c.codcli ++ ", Nome: " ++ c.cliente))

/-- The not-found message for a name lookup. -/
def mensagemNaoEncontrado (nome : String) : String :=
  "Nenhum cliente encontrado com o nome " ++ nome ++ "."

/-- The missing-identifier message. -/
def mensagemFaltaIdentificador : String :=
  "Para esta consulta, por favor, informe o nome ou o código do cliente."

/-- Embedding of `_resolver_cliente(entidades)`.  `raise ValueError` becomes
`Except.error`. -/
def resolver_cliente (entidades : Entidades)
    (db : String × Params → ResultadoClientes) : Except String Int :=
  let codigo_cliente := entidades.codigo_cliente
  let nome_cliente := entidades.nome_cliente
  if truthyInt codigo_cliente then .ok (codigo_cliente.getD 0)
  else if truthyStr nome_cliente then
    match encontrar_clientes_por_nome_ou_codigo nome_cliente none db with
    | .error e => .error e
    | .ok resultados =>
      let ds := resultados.dados.getD []
      if truthyStr resultados.erro ∨ ds = [] then
        .error (mensagemNaoEncontrado (nome_cliente.getD ""))
      else if ds.length > 1 then
        .error (mensagemAmbiguidade ds)
      else
        .ok ((ds.headD ⟨0, "", ""⟩).codcli)
  else .error mensagemFaltaIdentificador

theorem contem_si (s : String) : Contem s s := by
  refine ⟨"", "", ?_⟩
  have : ("" ++ s : String) = s := by
    apply String.ext
    simp [String.data_append]
  rw [this]
  apply String.ext
  simp [String.data_append]

theorem contem_juntar (sep : String) (l : List String) (s : String) (h : s ∈ l) :
    Contem (juntar sep l) s := by
  induction l with
  | nil => cases h
  | cons x resto ih =>
    cases resto with
    | nil =>
      simp at h
      subst h
      exact contem_si s
    | cons y resto₂ =>
      rcases List.mem_cons.mp h with h | h
      · subst h
        refine ⟨"", sep ++ juntar sep (y :: resto₂), ?_⟩
        apply String.ext
        simp [juntar, String.data_append, List.append_assoc]
      · have hc := ih h
        have : juntar sep (x :: y :: resto₂) = (x ++ sep) ++ juntar sep (y :: resto₂) := by
          simp [juntar, String.append_assoc]
        rw [this]
        exact contem_prefixo _ hc

/-- C3 (counterexample).  The code tests the customer code with Python
truthiness, not presence: with `codigo_cliente = 0` present and no name the
resolver yields the missing-identifier error instead of using the code
directly, and with `codigo_cliente = 0` plus a name it performs a name
lookup (the outcome depends on the lookup oracle). -/
theorem c3_contraexemplo :
    resolver_cliente { codigo_cliente := some 0 } (fun _ => ⟨some [], none⟩) =
      .error mensagemFaltaIdentificador ∧
    resolver_cliente { codigo_cliente := some 0 } (fun _ => ⟨some [], none⟩) ≠ .ok 0 ∧
    resolver_cliente { codigo_cliente := some 0, nome_cliente := some "joao" }
        (fun _ => ⟨some [⟨7, "JOAO LTDA", "JOAO SA"⟩], none⟩) ≠
      resolver_cliente { codigo_cliente := some 0, nome_cliente := some "joao" }
        (fun _ => ⟨some [], none⟩) := by
  exact ⟨rfl, by decide, by decide⟩

/-- C3 (amended).  Customer resolution with truthiness caveat: a *non-zero*
numeric code is used directly and the result never depends on the lookup
collaborator; otherwise, with a non-empty name, 0 matches yield the NotFound
error, exactly 1 match yields the resolved customer's code, and more than 1
match yields the Ambiguous error whose message carries every candidate's
code and name; with neither (truthy) code nor name, the MissingIdentifier
error is produced. -/
theorem c3_emenda (entidades : Entidades) (db db₂ : String × Params → ResultadoClientes) :
    (∀ c : Int, entidades.codigo_cliente = some c → c ≠ 0 →
      resolver_cliente entidades db = .ok c ∧
      resolver_cliente entidades db = resolver_cliente entidades db₂) ∧
    (truthyInt entidades.codigo_cliente = false →
      ∀ nm, entidades.nome_cliente = some nm → nm ≠ "" →
      ∀ ds : List Cliente, (∀ q, db q = ⟨some ds, none⟩) →
        (ds = [] → resolver_cliente entidades db = .error (mensagemNaoEncontrado nm)) ∧
        (∀ c, ds = [c] → resolver_cliente entidades db = .ok c.codcli) ∧
        (1 < ds.length →
          resolver_cliente entidades db = .error (mensagemAmbiguidade ds) ∧
          ∀ c ∈ ds, Contem (mensagemAmbiguidade ds)
            ("- Código: " ++ intStr c.codcli ++ ", Nome: " ++ c.cliente))) ∧
    (truthyInt entidades.codigo_cliente = false → truthyStr entidades.nome_cliente = false →
      resolver_cliente entidades db = .error mensagemFaltaIdentificador) := by
  refine ⟨?_, ?_, ?_⟩
  · intro c hc hc0
    constructor
    · simp [resolver_cliente, hc, truthyInt, hc0]
    · simp [resolver_cliente, hc, truthyInt, hc0]
  · intro hcod nm hnm hnm0 ds hdb
    have hts : truthyStr entidades.nome_cliente = true := by
      rw [hnm]; simpa [truthyStr] using hnm0
    have henc : encontrar_clientes_por_nome_ou_codigo (some nm) none db =
        .ok ⟨some ds, none⟩ := by
      simp only [encontrar_clientes_por_nome_ou_codigo]
      simp [truthyStr, hnm0, hdb]
    have hred : resolver_cliente entidades db =
        (if ds = [] then .error (mensagemNaoEncontrado nm)
         else if ds.length > 1 then .error (mensagemAmbiguidade ds)
         else .ok ((ds.headD ⟨0, "", ""⟩).codcli)) := by
      simp only [resolver_cliente, hcod, Bool.false_eq_true, if_false, hnm, Option.getD_some]
      simp only [truthyStr, hnm0]
      rw [henc]
      simp [truthyStr]
      exact fun h => absurd h hnm0
    refine ⟨?_, ?_, ?_⟩
    · intro hds
      subst hds
      simp [hred]
    · intro c hds
      subst hds
      simp [hred]
    · intro hlen
      have hne : ds ≠ [] := by intro he; rw [he] at hlen; simp at hlen
      constructor
      · rw [hred, if_neg hne, if_pos (by omega)]
      · intro c hcds
        unfold mensagemAmbiguidade
        apply contem_prefixo
        apply contem_juntar
        exact List.mem_map_of_mem _ hcds
  · intro hcod hnome
    simp [resolver_cliente, hcod, hnome]

/-- Witness for the amended C3: direct non-zero code, ambiguous name lookup,
and missing identifier, each at concrete inputs. -/
theorem c3_emenda_witness :
    resolver_cliente { codigo_cliente := some 7 } (fun _ => ⟨some [], none⟩) = .ok 7 ∧
    resolver_cliente { nome_cliente := some "maria" }
        (fun _ => ⟨some [⟨1, "MARIA A", "MA"⟩, ⟨2, "MARIA B", "MB"⟩], none⟩) =
      .error (mensagemAmbiguidade [⟨1, "MARIA A", "MA"⟩, ⟨2, "MARIA B", "MB"⟩]) ∧
    resolver_cliente {} (fun _ => ⟨some [], none⟩) = .error mensagemFaltaIdentificador := by
  refine ⟨((c3_emenda { codigo_cliente := some 7 } (fun _ => ⟨some [], none⟩)
      (fun _ => ⟨some [], none⟩)).1 7 rfl (by decide)).1, ?_, ?_⟩
  · exact (((c3_emenda { nome_cliente := some "maria" }
      (fun _ => ⟨some [⟨1, "MARIA A", "MA"⟩, ⟨2, "MARIA B", "MB"⟩], none⟩)
      (fun _ => ⟨some [⟨1, "MARIA A", "MA"⟩, ⟨2, "MARIA B", "MB"⟩], none⟩)).2.1 (by decide)
      "maria" rfl (by decide) [⟨1, "MARIA A", "MA"⟩, ⟨2, "MARIA B", "MB"⟩]
      (fun _ => rfl)).2.2 (by decide)).1
  · exact (c3_emenda {} (fun _ => ⟨some [], none⟩) (fun _ => ⟨some [], none⟩)).2.2
      (by decide) (by decide)

-- Intent classification stage (app/agentes/agente_roteador.py) ---------------

/-- The structured intent+entities contract (`IntencaoConsulta` model). -/
structure IntencaoConsulta where
  intencao : String
  entidades : Entidades := {}
  mensagem_esclarecimento : Option String := none
deriving DecidableEq

/-- `INTENCOES_QUE_PRECISAM_PERIODO`. -/
def INTENCOES_QUE_PRECISAM_PERIODO : List String :=
  ["buscar_produtos_classificados", "buscar_clientes_classificados", "listar_registros_vendas"]

/-- The `mensagens_esclarecimento` dictionary, with its `.get` default. -/
def mensagens_esclarecimento (intencao : String) : String :=
  if intencao = "buscar_produtos_classificados" then
    "Para consultar os produtos mais vendidos, preciso saber o período. Você quer ver os dados de hoje, este mês, último mês ou outro período específico?"
  else if intencao = "buscar_clientes_classificados" then
    "Para consultar os clientes que mais gastaram, preciso saber o período. Você quer ver os dados de hoje, este mês, último mês ou outro período específico?"
  else if intencao = "listar_registros_vendas" then
    "Para consultar o histórico de vendas, preciso saber o período. Você quer ver os dados de hoje, este mês, último mês ou outro período específico?"
  else
    "Para esta consulta, preciso saber o período de tempo. Você pode especificar: hoje, este mês, último mês ou outro período?"

/-- Embedding of `obter_intencao`'s deterministic post-processing.  The LLM
call plus JSON parsing is the external collaborator: `resultado_bruto` is
`some obj` when parsing produced an `IntencaoConsulta`, `none` when any
exception was raised (the `except` branch returns intent `desconhecido`). -/
def obter_intencao (resultado_bruto : Option IntencaoConsulta) : IntencaoConsulta :=
  match resultado_bruto with
  | none => { intencao := "desconhecido" }
  | some obj =>
    if obj.intencao ∈ INTENCOES_QUE_PRECISAM_PERIODO then
      let periodo := obj.entidades.periodo_tempo
      if ¬ truthyStr periodo ∨ periodo = some "sempre" then
        { intencao := "necessita_esclarecimento", entidades := {},
          mensagem_esclarecimento := some (mensagens_esclarecimento obj.intencao) }
      else obj
    else obj

/-- The spec's Intent invariant: `needs_clarification` implies empty entities
and a non-empty clarification message. -/
def invarianteEsclarecimento (i : IntencaoConsulta) : Prop :=
  i.intencao = "necessita_esclarecimento" →
    i.entidades = {} ∧ ∃ m, i.mensagem_esclarecimento = some m ∧ m ≠ ""

theorem mensagens_nao_vazia (i : String) : mensagens_esclarecimento i ≠ "" := by
  unfold mensagens_esclarecimento
  split
  · decide
  · split
    · decide
    · split <;> decide

/-- A possible NLU output: tagged `necessita_esclarecimento`, yet carrying a
non-empty entity bag and no clarification message. -/
def saidaNluMalformada : IntencaoConsulta :=
  { intencao := "necessita_esclarecimento",
    entidades := { codigo_cliente := some 1 } }

/-- C7 (counterexample).  `obter_intencao` passes an NLU result tagged
`necessita_esclarecimento` through unvalidated: with non-empty entities and
no message the returned Intent violates the invariant. -/
theorem c7_contraexemplo :
    (obter_intencao (some saidaNluMalformada)).intencao = "necessita_esclarecimento" ∧
    (obter_intencao (some saidaNluMalformada)).entidades ≠ {} ∧
    (obter_intencao (some saidaNluMalformada)).mensagem_esclarecimento = none := by
  exact ⟨rfl, by decide, rfl⟩

/-- C7 (amended).  The classification stage *preserves* the invariant and its
own period-enforcement rewrite *establishes* it: (a) whenever a
period-requiring intent arrives without a truthy period (or with the literal
`"sempre"`), the returned Intent is `necessita_esclarecimento` with empty
entities and a non-empty message; (b) if the NLU output itself satisfies the
invariant (as its prompt demands), so does every Intent `obter_intencao`
returns — the parse-failure fallback included. -/
theorem c7_emenda :
    (∀ r : IntencaoConsulta, r.intencao ∈ INTENCOES_QUE_PRECISAM_PERIODO →
      (¬ truthyStr r.entidades.periodo_tempo ∨ r.entidades.periodo_tempo = some "sempre") →
      (obter_intencao (some r)).intencao = "necessita_esclarecimento" ∧
      (obter_intencao (some r)).entidades = {} ∧
      ∃ m, (obter_intencao (some r)).mensagem_esclarecimento = some m ∧ m ≠ "") ∧
    (∀ pr : Option IntencaoConsulta, (∀ r, pr = some r → invarianteEsclarecimento r) →
      invarianteEsclarecimento (obter_intencao pr)) := by
  constructor
  · intro r hmem hper
    have hred : obter_intencao (some r) =
        { intencao := "necessita_esclarecimento", entidades := {},
          mensagem_esclarecimento := some (mensagens_esclarecimento r.intencao) } := by
      simp only [obter_intencao, if_pos hmem, if_pos hper]
    rw [hred]
    exact ⟨rfl, rfl, mensagens_esclarecimento r.intencao, rfl, mensagens_nao_vazia _⟩
  · intro pr hinv
    match pr with
    | none =>
      intro h
      simp [obter_intencao] at h
    | some r =>
      simp only [obter_intencao]
      split
      · split
        · intro _
          exact ⟨rfl, mensagens_esclarecimento r.intencao, rfl, mensagens_nao_vazia _⟩
        · exact hinv r rfl
      · exact hinv r rfl

/-- A well-formed NLU output for an order-items question. -/
def saidaNluItens : IntencaoConsulta :=
  { intencao := "obter_itens_pedido",
    entidades := { id_pedido := some 5 } }

/-- Witness for the amended C7: a ranking intent without a period is rewritten
to a well-formed clarification, and a well-formed NLU output stays well-formed. -/
theorem c7_emenda_witness :
    ("buscar_produtos_classificados" ∈ INTENCOES_QUE_PRECISAM_PERIODO) ∧
    (obter_intencao (some { intencao := "buscar_produtos_classificados" })).intencao =
      "necessita_esclarecimento" ∧
    (obter_intencao (some { intencao := "buscar_produtos_classificados" })).entidades = {} ∧
    invarianteEsclarecimento (obter_intencao (some saidaNluItens)) := by
  have h1 := c7_emenda.1 { intencao := "buscar_produtos_classificados" } (by decide)
    (by left; decide)
  have h2 := c7_emenda.2 (some saidaNluItens)
    (by intro r hr; cases hr; intro hbad; simp [saidaNluItens] at hbad)
  exact ⟨by decide, h1.1, h1.2.1, h2⟩

-- Intent handlers and the orchestrator (app/core/orquestrador.py) ------------

/-- An intent handler: entities plus the customer-lookup collaborator and
today's date, yielding a `(sql, params)` pair or a validation error. -/
abbrev Manipulador :=
  Entidades → (String × Params → ResultadoClientes) → Data → Except String (String × Params)

/-- Embedding of `_manipular_produtos_classificados`.  A missing (or empty)
period entity is silently defaulted to `"este_mes"` before the builder runs. -/
def manipular_produtos_classificados : Manipulador := fun entidades _ hoje =>
  if ¬ truthyStr entidades.criterio_classificacao then
    .error "Critério de classificação não especificado (ex: mais vendidos)."
  else
    let periodo :=
      if truthyStr entidades.periodo_tempo then entidades.periodo_tempo.getD "" else "este_mes"
    construir_query_produtos_classificados (entidades.criterio_classificacao.getD "") periodo
      (entidades.limite.getD 10) hoje

/-- Embedding of `_manipular_registros_vendas`.  An absent period entity is
defaulted to `"este_mes"` via `dict.get`. -/
def manipular_registros_vendas : Manipulador := fun entidades db hoje =>
  match resolver_cliente entidades db with
  | .error e => .error e
  | .ok codigo_cliente =>
    construir_query_registros_vendas codigo_cliente (entidades.periodo_tempo.getD "este_mes")
      (entidades.limite.getD 50) hoje

/-- Embedding of `_manipular_detalhes_produto`. -/
def manipular_detalhes_produto : Manipulador := fun entidades _ _ =>
  if ¬ truthyStr entidades.nome_produto then
    .error "Por favor, especifique o nome do produto."
  else .ok (construir_query_detalhes_produto (entidades.nome_produto.getD ""))

/-- Embedding of `_manipular_itens_pedido`. -/
def manipular_itens_pedido : Manipulador := fun entidades _ _ =>
  if ¬ truthyInt entidades.id_pedido then
    .error "Por favor, informe o número do pedido."
  else .ok (construir_query_itens_pedido (entidades.id_pedido.getD 0))

/-- Embedding of `_manipular_limite_credito`. -/
def manipular_limite_credito : Manipulador := fun entidades db _ =>
  match resolver_cliente entidades db with
  | .error e => .error e
  | .ok codigo_cliente => .ok (construir_query_limite_credito codigo_cliente)

/-- Embedding of `_manipular_status_cliente`. -/
def manipular_status_cliente : Manipulador := fun entidades db _ =>
  match resolver_cliente entidades db with
  | .error e => .error e
  | .ok codigo_cliente => .ok (construir_query_status_cliente codigo_cliente)

/-- Embedding of `_manipular_contato_cliente`. -/
def manipular_contato_cliente : Manipulador := fun entidades db _ =>
  match resolver_cliente entidades db with
  | .error e => .error e
  | .ok codigo_cliente => .ok (construir_query_contato_cliente codigo_cliente)

/-- Embedding of `_manipular_endereco_cliente`. -/
def manipular_endereco_cliente : Manipulador := fun entidades db _ =>
  match resolver_cliente entidades db with
  | .error e => .error e
  | .ok codigo_cliente => .ok (construir_query_endereco_cliente codigo_cliente)

/-- Embedding of `_manipular_clientes_por_cidade`. -/
def manipular_clientes_por_cidade : Manipulador := fun entidades _ _ =>
  if ¬ truthyStr entidades.cidade then
    .error "Por favor, especifique a cidade."
  else .ok (construir_query_clientes_por_cidade (entidades.cidade.getD "")
    (entidades.limite.getD 20))

/-- Embedding of `_manipular_clientes_recentes`: here the period is hard
rejected when missing or literally `"sempre"`. -/
def manipular_clientes_recentes : Manipulador := fun entidades _ hoje =>
  if ¬ truthyStr entidades.periodo_tempo ∨ entidades.periodo_tempo = some "sempre" then
    .error "Por favor, especifique um período de tempo específico (ex: este mês, hoje)."
  else construir_query_clientes_recentes (entidades.periodo_tempo.getD "")
    (entidades.limite.getD 20) hoje

/-- Embedding of `_manipular_produtos_por_marca`. -/
def manipular_produtos_por_marca : Manipulador := fun entidades _ _ =>
  if ¬ truthyStr entidades.marca then
    .error "Por favor, especifique a marca do produto."
  else .ok (construir_query_produtos_por_marca (entidades.marca.getD "")
    (entidades.limite.getD 20))

/-- Embedding of `_manipular_produtos_descontinuados`. -/
def manipular_produtos_descontinuados : Manipulador := fun entidades _ _ =>
  .ok (construir_query_produtos_descontinuados (entidades.limite.getD 20))

/-- Embedding of `_manipular_posicao_pedido`. -/
def manipular_posicao_pedido : Manipulador := fun entidades _ _ =>
  if ¬ truthyInt entidades.id_pedido then
    .error "Por favor, informe o número do pedido."
  else .ok (construir_query_posicao_pedido (entidades.id_pedido.getD 0))

/-- Embedding of `_manipular_valor_pedido`. -/
def manipular_valor_pedido : Manipulador := fun entidades _ _ =>
  if ¬ truthyInt entidades.id_pedido then
    .error "Por favor, informe o número do pedido."
  else .ok (construir_query_valor_pedido (entidades.id_pedido.getD 0))

/-- Embedding of `_manipular_data_entrega_pedido`. -/
def manipular_data_entrega_pedido : Manipulador := fun entidades _ _ =>
  if ¬ truthyInt entidades.id_pedido then
    .error "Por favor, informe o número do pedido."
  else .ok (construir_query_data_entrega_pedido (entidades.id_pedido.getD 0))

/-- Embedding of `_manipular_pedidos_por_posicao`. -/
def manipular_pedidos_por_posicao : Manipulador := fun entidades _ _ =>
  if ¬ truthyStr entidades.posicao then
    .error "Por favor, especifique a posição dos pedidos (ex: bloqueado)."
  else .ok (construir_query_pedidos_por_posicao (entidades.posicao.getD "")
    (entidades.limite.getD 20))

/-- Embedding of `_manipular_clientes_classificados`.  A missing (or empty)
period entity is silently defaulted to `"este_mes"`. -/
def manipular_clientes_classificados : Manipulador := fun entidades _ hoje =>
  if ¬ truthyStr entidades.criterio_classificacao then
    .error "Critério de classificação para clientes não especificado."
  else
    let periodo :=
      if truthyStr entidades.periodo_tempo then entidades.periodo_tempo.getD "" else "este_mes"
    construir_query_clientes_classificados (entidades.criterio_classificacao.getD "") periodo
      (entidades.limite.getD 10) hoje

/-- Embedding of the `MAPEAMENTO_INTENCOES` dispatch dictionary. -/
def MAPEAMENTO_INTENCOES (intencao : String) : Option Manipulador :=
  if intencao = "buscar_produtos_classificados" then some manipular_produtos_classificados
  else if intencao = "listar_registros_vendas" then some manipular_registros_vendas
  else if intencao = "buscar_detalhes_produto" then some manipular_detalhes_produto
  else if intencao = "obter_itens_pedido" then some manipular_itens_pedido
  else if intencao = "consultar_limite_credito" then some manipular_limite_credito
  else if intencao = "verificar_status_cliente" then some manipular_status_cliente
  else if intencao = "buscar_dados_contato_cliente" then some manipular_contato_cliente
  else if intencao = "buscar_endereco_cliente" then some manipular_endereco_cliente
  else if intencao = "listar_clientes_por_cidade" then some manipular_clientes_por_cidade
  else if intencao = "listar_clientes_recentes" then some manipular_clientes_recentes
  else if intencao = "listar_produtos_por_marca" then some manipular_produtos_por_marca
  else if intencao = "listar_produtos_descontinuados" then some manipular_produtos_descontinuados
  else if intencao = "verificar_posicao_pedido" then some manipular_posicao_pedido
  else if intencao = "consultar_valor_pedido" then some manipular_valor_pedido
  else if intencao = "consultar_data_entrega_pedido" then some manipular_data_entrega_pedido
  else if intencao = "listar_pedidos_por_posicao" then some manipular_pedidos_por_posicao
  else if intencao = "buscar_clientes_classificados" then some manipular_clientes_classificados
  else none

/-- The "nothing found" message (valid empty result). -/
def mensagemNadaEncontrado : String :=
  "Não encontrei nenhum resultado para sua consulta. Verifique se os dados estão corretos ou tente com outros parâmetros."

/-- The generic database-failure apology. -/
def mensagemErroBanco : String :=
  "Desculpe, ocorreu um erro ao consultar a base de dados. Por favor, tente novamente."

/-- The generic internal-error apology of the orchestrator's catch-all. -/
def mensagemErroInterno : String :=
  "Desculpe, ocorreu um erro interno ao processar sua solicitação. Nossa equipe foi notificada e estamos trabalhando para resolver."

/-- The canned help message for the `desconhecido` intent. -/
def mensagemAjuda : String :=
  "Desculpe, não entendi sua solicitação. Você pode perguntar sobre:\n• Produtos mais vendidos\n• Informações de clientes\n• Status de pedidos\n• Limites de crédito"

/-- Embedding of `gerenciar_consulta_usuario` (the pipeline after intent
classification).  `dados_intencao` is the classified intent; `dbClientes`
and `db` are the database collaborator (customer lookup and main query);
`resumo` is the summarizer collaborator's answer for the retrieved rows. -/
def gerenciar_consulta_usuario (dados_intencao : IntencaoConsulta)
    (dbClientes : String × Params → ResultadoClientes)
    (db : String × Params → ResultadoDB)
    (resumo : String) (hoje : Data) : String :=
  let intencao := dados_intencao.intencao
  if intencao = "desconhecido" then mensagemAjuda
  else if intencao = "necessita_esclarecimento" then
    (match dados_intencao.mensagem_esclarecimento with
     | some m => if m = "" then "Por favor, forneça mais detalhes para sua consulta." else m
     | none => "Por favor, forneça mais detalhes para sua consulta.")
  else
    match MAPEAMENTO_INTENCOES intencao with
    | none => "Desculpe, ainda não consigo processar este tipo de consulta: " ++ intencao
    | some manipulador =>
      match manipulador dados_intencao.entidades dbClientes hoje with
      | .error ve => "❌ " ++ ve
      | .ok q =>
        let resultado := db q
        if truthyStr resultado.erro then mensagemErroBanco
        else
          let dados := resultado.dados.getD []
          if dados = [] then mensagemNadaEncontrado
          else resumo

/-- C1 (divergence exhibit).  The Query Catalog builders do reject an empty
or `"sempre"` period, but the orchestrator's intent handlers for all three
ranking/history intents silently default a missing period to `"este_mes"`
and build a query anyway — the build succeeds where the claim (and spec §9's
hard-reject contract) requires failure. -/
theorem c1_divergencia :
    (manipular_produtos_classificados { criterio_classificacao := some "mais_vendidos" }
      (fun _ => ⟨some [], none⟩) ⟨2025, 10, 12⟩).isOk = true ∧
    (manipular_clientes_classificados { criterio_classificacao := some "maior_valor_compras" }
      (fun _ => ⟨some [], none⟩) ⟨2025, 10, 12⟩).isOk = true ∧
    (manipular_registros_vendas { codigo_cliente := some 7 }
      (fun _ => ⟨some [], none⟩) ⟨2025, 10, 12⟩).isOk = true ∧
    (construir_query_produtos_classificados "mais_vendidos" "" 10 ⟨2025, 10, 12⟩).isOk = false ∧
    (construir_query_produtos_classificados "mais_vendidos" "Sempre" 10
      ⟨2025, 10, 12⟩).isOk = false ∧
    (construir_clausula_data_otimizada "" "C.DATA" ⟨2025, 10, 12⟩).isOk = false ∧
    (construir_clausula_data_otimizada "sempre" "C.DATA" ⟨2025, 10, 12⟩).isOk = false := by
  exact ⟨rfl, rfl, rfl, rfl, rfl, rfl, rfl⟩

/-- C9.  When dispatch and query building succeed and the database returns a
successful empty result, the orchestrator answers with the human-readable
"nothing found" message, which differs from the database apology, from the
internal-error apology, and from every validation message (all of which are
prefixed `"❌ "`). -/
theorem c9_resultado_vazio (di : IntencaoConsulta)
    (dbClientes : String × Params → ResultadoClientes)
    (db : String × Params → ResultadoDB) (resumo : String) (hoje : Data)
    (manip : Manipulador) (hm : MAPEAMENTO_INTENCOES di.intencao = some manip)
    (q : String × Params) (hq : manip di.entidades dbClientes hoje = .ok q)
    (hdb : db q = ⟨some [], none⟩) :
    gerenciar_consulta_usuario di dbClientes db resumo hoje = mensagemNadaEncontrado ∧
    mensagemNadaEncontrado ≠ mensagemErroBanco ∧
    mensagemNadaEncontrado ≠ mensagemErroInterno ∧
    ∀ ve : String, mensagemNadaEncontrado ≠ "❌ " ++ ve := by
  have h1 : di.intencao ≠ "desconhecido" := by
    intro h
    rw [h] at hm
    simp [MAPEAMENTO_INTENCOES] at hm
  have h2 : di.intencao ≠ "necessita_esclarecimento" := by
    intro h
    rw [h] at hm
    simp [MAPEAMENTO_INTENCOES] at hm
  refine ⟨?_, by decide, by decide, ?_⟩
  · simp only [gerenciar_consulta_usuario, if_neg h1, if_neg h2, hm, hq, hdb]
    simp [truthyStr]
  · intro ve h
    have hd := congrArg String.data h
    rw [String.data_append] at hd
    have he : ("❌ " : String).data = ['❌', ' '] := by decide
    rw [he] at hd
    have hN : mensagemNadaEncontrado.data.head? = some 'N' := by decide
    rw [hd] at hN
    simp at hN

/-- An order-items intent for a nonexistent order id. -/
def intencaoItens9999 : IntencaoConsulta :=
  { intencao := "obter_itens_pedido", entidades := { id_pedido := some 9999 } }

/-- Witness for C9: a valid order-items intent whose query returns zero rows. -/
theorem c9_resultado_vazio_witness :
    MAPEAMENTO_INTENCOES "obter_itens_pedido" = some manipular_itens_pedido ∧
    manipular_itens_pedido { id_pedido := some 9999 } (fun _ => ⟨some [], none⟩)
        ⟨2025, 10, 12⟩ = .ok (construir_query_itens_pedido 9999) ∧
    gerenciar_consulta_usuario intencaoItens9999
      (fun _ => ⟨some [], none⟩) (fun _ => ⟨some [], none⟩) "resumo" ⟨2025, 10, 12⟩ =
      mensagemNadaEncontrado := by
  refine ⟨rfl, rfl, ?_⟩
  exact (c9_resultado_vazio intencaoItens9999 (fun _ => ⟨some [], none⟩)
    (fun _ => ⟨some [], none⟩) "resumo" ⟨2025, 10, 12⟩ manipular_itens_pedido rfl
    (construir_query_itens_pedido 9999) rfl rfl).1

-- Session context store (app/core/gerenciador_contexto.py) -------------------

/-- One message of a conversation history (`MensagemContexto`). -/
structure MensagemContexto where
  texto : String
  timestamp : Int
  tipo : String := "text"
  resposta_bot : Option String := none
deriving DecidableEq

/-- Per-user session state (`SessaoUsuario`).  Time is in minutes so the TTL
comparison against `timeout_minutos` is direct. -/
structure SessaoUsuario where
  usuario_id : String
  mensagens : List MensagemContexto := []
  ultima_atividade : Int
  timeout_minutos : Int := 30
  max_mensagens : Nat := 10
  total_mensagens_recebidas : Nat := 0
  sessao_iniciada : Int
deriving DecidableEq

/-- `SessaoUsuario.__init__`. -/
def novaSessao (usuario_id : String) (timeout_minutos : Int) (max_mensagens : Nat)
    (agora : Int) : SessaoUsuario :=
  { usuario_id := usuario_id, ultima_atividade := agora,
    timeout_minutos := timeout_minutos, max_mensagens := max_mensagens,
    sessao_iniciada := agora }

/-- Python list slice `l[k:]`, including the negative-index case
(`l[-n:]` keeps the last `n` elements, clamped at the front). -/
def fatiaDesde (k : Int) (l : List MensagemContexto) : List MensagemContexto :=
  if 0 ≤ k then l.drop k.toNat
  else l.drop ((l.length : Int) + k).toNat

/-- Embedding of `SessaoUsuario.adicionar_mensagem`: append the new message;
when the history exceeds the cap, drop
`len(mensagens) - max(3, max_mensagens)` entries from the front
(a Python slice, so a negative count keeps a shorter suffix). -/
def SessaoUsuario.adicionar_mensagem (s : SessaoUsuario) (texto tipo : String)
    (agora : Int) : SessaoUsuario :=
  let nova_mensagem : MensagemContexto := { texto := texto, timestamp := agora, tipo := tipo }
  let mensagens₀ := s.mensagens ++ [nova_mensagem]
  let mensagens₁ :=
    if mensagens₀.length > s.max_mensagens then
      fatiaDesde ((mensagens₀.length : Int) - (max 3 s.max_mensagens : Nat)) mensagens₀
    else mensagens₀
  { s with
    mensagens := mensagens₁, ultima_atividade := agora,
    total_mensagens_recebidas := s.total_mensagens_recebidas + 1 }

/-- Embedding of `SessaoUsuario.esta_expirada`: strictly more than
`timeout_minutos` of inactivity. -/
def SessaoUsuario.esta_expirada (s : SessaoUsuario) (agora : Int) : Bool :=
  agora - s.ultima_atividade > s.timeout_minutos

/-- The session map owner (`GerenciadorContexto`), keyed by conversation id. -/
structure GerenciadorContexto where
  sessoes : List (String × SessaoUsuario) := []
  timeout_minutos : Int := 30
  max_mensagens : Nat := 10
  total_sessoes_criadas : Nat := 0
  total_sessoes_limpas : Nat := 0
deriving DecidableEq

/-- Python dict assignment `d[k] = v` on an insertion-ordered association
list. -/
def definirChave (k : String) (v : SessaoUsuario)
    (l : List (String × SessaoUsuario)) : List (String × SessaoUsuario) :=
  if (List.lookup k l).isSome then l.map (fun p => if p.1 = k then (k, v) else p)
  else l ++ [(k, v)]

/-- Embedding of `GerenciadorContexto.adicionar_mensagem`: create the session
on first contact, then append the message to it. -/
def GerenciadorContexto.adicionar_mensagem (g : GerenciadorContexto)
    (usuario_id texto tipo : String) (agora : Int) : GerenciadorContexto :=
  let escolha :=
    match List.lookup usuario_id g.sessoes with
    | some s => (s, g.total_sessoes_criadas)
    | none => (novaSessao usuario_id g.timeout_minutos g.max_mensagens agora,
               g.total_sessoes_criadas + 1)
  { g with
    sessoes := definirChave usuario_id (escolha.1.adicionar_mensagem texto tipo agora) g.sessoes,
    total_sessoes_criadas := escolha.2 }

/-- Embedding of `GerenciadorContexto._limpar_sessoes_expiradas` (one sweep
cycle of the background eviction task). -/
def GerenciadorContexto.limpar_sessoes_expiradas (g : GerenciadorContexto)
    (agora : Int) : GerenciadorContexto :=
  let restantes := g.sessoes.filter (fun p => ¬ p.2.esta_expirada agora)
  { g with
    sessoes := restantes,
    total_sessoes_limpas := g.total_sessoes_limpas + (g.sessoes.length - restantes.length) }

-- Association-list lemmas for the session map ---------------------------------

theorem lookup_none_of_not_mem {β : Type} (l : List (String × β)) (k : String)
    (h : k ∉ l.map Prod.fst) : List.lookup k l = none := by
  induction l with
  | nil => rfl
  | cons p t ih =>
    simp only [List.map_cons, List.mem_cons] at h
    push_neg at h
    have hb : (k == p.1) = false := beq_eq_false_iff_ne.mpr h.1
    simp only [List.lookup, hb]
    exact ih h.2

theorem lookup_filter_none {β : Type} (l : List (String × β)) (k : String) (v : β)
    (q : String × β → Bool) (hnd : (l.map Prod.fst).Nodup)
    (hl : List.lookup k l = some v) (hq : q (k, v) = false) :
    List.lookup k (l.filter q) = none := by
  induction l with
  | nil => simp at hl
  | cons p t ih =>
    simp only [List.map_cons, List.nodup_cons] at hnd
    by_cases hk : k = p.1
    · have hb : (k == p.1) = true := beq_iff_eq.mpr hk
      simp only [List.lookup, hb] at hl
      have hp : p = (k, v) := by
        cases p
        simp at hb hl
        simp [hb, hl]
      subst hp
      simp only [List.filter, hq]
      refine lookup_none_of_not_mem _ _ ?_
      intro hmem
      obtain ⟨pr, hpr, hfst⟩ := List.mem_map.mp hmem
      exact hnd.1 (by
        simpa [hfst] using List.mem_map_of_mem Prod.fst (List.mem_of_mem_filter hpr))
    · have hb : (k == p.1) = false := beq_eq_false_iff_ne.mpr hk
      simp only [List.lookup, hb] at hl
      have hrec := ih hnd.2 hl
      simp only [List.filter]
      cases hqp : q p
      · exact hrec
      · simp only [List.lookup, hb]
        exact hrec

/-- The message record appended for one incoming text (the
`MensagemContexto(...)` constructed inside `adicionar_mensagem`). -/
def mensagemDe (texto tipo : String) (agora : Int) : MensagemContexto :=
  { texto := texto, timestamp := agora, tipo := tipo }

/-- C6.  Session store: (a) when an appended message pushes the history past
the cap (cap at least 2), the oldest entries are dropped first and exactly
the most recent `max 3 cap` messages remain, in their original order, the
newest last; (b) a session inactive strictly longer than the TTL is removed
by the sweep; (c) the next message from that user then creates a fresh
session containing only the new message. -/
theorem c6_sessao_contexto :
    (∀ (s : SessaoUsuario) (texto tipo : String) (agora : Int),
      2 ≤ s.max_mensagens → s.mensagens.length + 1 > s.max_mensagens →
      (s.adicionar_mensagem texto tipo agora).mensagens =
        (s.mensagens ++ [mensagemDe texto tipo agora]).drop
          (s.mensagens.length + 1 - max 3 s.max_mensagens) ∧
      (s.adicionar_mensagem texto tipo agora).mensagens.length = max 3 s.max_mensagens ∧
      (s.adicionar_mensagem texto tipo agora).mensagens.getLast? =
        some (mensagemDe texto tipo agora)) ∧
    (∀ (g : GerenciadorContexto) (uid : String) (s : SessaoUsuario) (agora : Int),
      (g.sessoes.map Prod.fst).Nodup → List.lookup uid g.sessoes = some s →
      s.esta_expirada agora = true →
      List.lookup uid (g.limpar_sessoes_expiradas agora).sessoes = none) ∧
    (∀ (g : GerenciadorContexto) (uid texto tipo : String) (agora : Int),
      List.lookup uid g.sessoes = none →
      List.lookup uid (g.adicionar_mensagem uid texto tipo agora).sessoes =
        some ((novaSessao uid g.timeout_minutos g.max_mensagens agora).adicionar_mensagem
          texto tipo agora) ∧
      ((novaSessao uid g.timeout_minutos g.max_mensagens agora).adicionar_mensagem
        texto tipo agora).mensagens = [mensagemDe texto tipo agora]) := by
  refine ⟨?_, ?_, ?_⟩
  · intro s texto tipo agora hmax hlen
    have hL : (s.mensagens ++ [mensagemDe texto tipo agora]).length =
        s.mensagens.length + 1 := by simp
    have hcap : max 3 s.max_mensagens ≤ s.mensagens.length + 1 := by omega
    have hmens : (s.adicionar_mensagem texto tipo agora).mensagens =
        (s.mensagens ++ [mensagemDe texto tipo agora]).drop
          (s.mensagens.length + 1 - max 3 s.max_mensagens) := by
      simp only [SessaoUsuario.adicionar_mensagem]
      simp only [mensagemDe] at hL ⊢
      rw [if_pos (by rw [hL]; omega)]
      unfold fatiaDesde
      rw [hL, if_pos (by omega)]
      congr 1
      omega
    refine ⟨hmens, ?_, ?_⟩
    · rw [hmens, List.length_drop, hL]
      omega
    · rw [hmens,
        List.drop_append_of_le_length (by omega),
        List.getLast?_concat]
  · intro g uid s agora hnd hl hexp
    simp only [GerenciadorContexto.limpar_sessoes_expiradas]
    exact lookup_filter_none g.sessoes uid s _ hnd hl (by simp [hexp])
  · intro g uid texto tipo agora hnone
    constructor
    · simp only [GerenciadorContexto.adicionar_mensagem, hnone, definirChave,
        Option.isSome_none, Bool.false_eq_true, if_false, List.lookup_append, hnone,
        Option.none_or]
      simp [List.lookup]
    · simp only [SessaoUsuario.adicionar_mensagem, novaSessao, mensagemDe]
      by_cases h0 : g.max_mensagens = 0
      · rw [h0]
        simp [fatiaDesde]
      · rw [if_neg (by simp; omega)]
        simp

/-- A three-message session at its cap. -/
def sessaoCheia : SessaoUsuario :=
  { usuario_id := "u", mensagens := [⟨"a", 0, "text", none⟩, ⟨"b", 1, "text", none⟩,
      ⟨"c", 2, "text", none⟩], ultima_atividade := 2, timeout_minutos := 30,
    max_mensagens := 3, sessao_iniciada := 0 }

/-- An idle session created at minute 0. -/
def sessaoParada : SessaoUsuario :=
  { usuario_id := "u", ultima_atividade := 0, sessao_iniciada := 0 }

/-- A store holding only the idle session. -/
def gerenciadorTeste : GerenciadorContexto :=
  { sessoes := [("u", sessaoParada)] }

/-- Witness for C6 at a concrete session, sweep and fresh message. -/
theorem c6_sessao_contexto_witness :
    ((2 : Nat) ≤ sessaoCheia.max_mensagens) ∧
    (sessaoCheia.adicionar_mensagem "d" "text" 3).mensagens.getLast? =
      some (mensagemDe "d" "text" 3) ∧
    List.lookup "u" (gerenciadorTeste.limpar_sessoes_expiradas 31).sessoes = none := by
  refine ⟨by decide, ?_, ?_⟩
  · exact (c6_sessao_contexto.1 sessaoCheia "d" "text" 3 (by decide) (by decide)).2.2
  · exact c6_sessao_contexto.2.1 gerenciadorTeste "u" sessaoParada 31 (by decide) rfl
      (by decide)

end TesteBot
